import Mathlib

/-!
# Ganesh bitmap texture cache glue (`src/gpu/SkGr.cpp`)

A shallow embedding of the bitmap-to-texture path of `SkGr.cpp`:
cache-key derivation, the palette/index packer, and the lookup / create /
scratch protocol against the GrContext collaborator; and of the colour blend
and the sample coordinates of `src/core/SkBitmapProcBicubic.cpp`.

Conventions of the embedding

* bytes are `Nat` values below 256, memory blocks are `List Nat`;
* multi-byte stores (`memcpy` of an integer object) are little-endian;
* `SkBitmap` dimensions are stored as `Nat` (SkBitmap never holds a negative
  width or height); `int` arithmetic on them is assumed to stay in range;
* what the C++ code receives from other translation units (the context, the
  pixel conversion routine, heap contents) is carried by `Platform` and
  `GrContext`.
-/

namespace SkGr

/-! ## Data model -/

/-- Values of `SkBitmap::Config` that `SkBitmapConfig2GrPixelConfig` switches on. -/
inductive Config where
  | kNo_Config
  | kA8_Config
  | kIndex8_Config
  | kRGB_565_Config
  | kARGB_4444_Config
  | kARGB_8888_Config
  deriving DecidableEq

/-- Values of `GrPixelConfig` used in `SkGr.cpp`. -/
inductive GrPixelConfig where
  | kUnknown_GrPixelConfig
  | kAlpha_8_GrPixelConfig
  | kIndex_8_GrPixelConfig
  | kRGB_565_GrPixelConfig
  | kRGBA_4444_GrPixelConfig
  | kRGBA_8888_GrPixelConfig
  | kBGRA_8888_GrPixelConfig
  deriving DecidableEq

/-- The part of an `SkBitmap` that `SkGr.cpp` looks at.  `pixels` is what
`getPixels()` yields while the pixels are locked (`none` for NULL), and
`colorTable` the `SkPMColor` entries of `getColorTable()` (`none` for NULL). -/
structure SkBitmap where
  config : Config
  width : Nat
  height : Nat
  rowBytes : Nat
  pixels : Option (List Nat)
  colorTable : Option (List Nat)
  generationID : Nat
  pixelRefOriginX : Int
  pixelRefOriginY : Int
  isVolatile : Bool
  pixelRef : Nat
  deriving DecidableEq

/-- Failures the embedding distinguishes. -/
inductive SkError where
  | RangeError
  | NullDeref
  deriving DecidableEq

/-- A `GrCacheID`: the domain tag and the bytes of `GrCacheID::Key`. -/
structure GrCacheID where
  domain : Nat
  key : List Nat
  deriving DecidableEq

/-- Constants and routines that `SkGr.cpp` takes from other translation units. -/
structure Platform where
  /-- size of `GrCacheID::Key` in bytes; the static assertion in the source requires `>= 16` -/
  sizeofKey : Nat
  /-- the value `GrCacheID::GenerateDomain()` returned for the function-local static -/
  gBitmapTextureDomain : Nat
  /-- the platform alias `kSkia8888_GrPixelConfig` -/
  kSkia8888_GrPixelConfig : GrPixelConfig
  /-- per-entry effect of `SkSrcPixelInfo::convertPixelsTo` from `kPMColor` premul
  to `kRGBA_8888` premul -/
  convertColor : Nat → Nat
  /-- contents of the block `SkAutoMalloc` hands out (the block is not cleared) -/
  heap : Nat → Nat
  /-- state of `tmpBitmap` after `origBitmap.copyTo(&tmpBitmap, kPMColor_SkColorType)` -/
  copyTo : SkBitmap → SkBitmap

/-- The identity the spec calls PixelSourceIdentity: generation id, pixel-ref
origin and dimensions. -/
structure PixelSourceIdentity where
  contentGenerationId : Nat
  subsetOriginX : Int
  subsetOriginY : Int
  width : Nat
  height : Nat
  deriving DecidableEq

/-- Snapshot of the identity fields of a bitmap. -/
def SkBitmap.identity (b : SkBitmap) : PixelSourceIdentity :=
  { contentGenerationId := b.generationID
    subsetOriginX := b.pixelRefOriginX
    subsetOriginY := b.pixelRefOriginY
    width := b.width
    height := b.height }

/-- The ranges of the C types of the identity fields: `uint32_t` generation id
and `int32_t` origin coordinates. -/
def SkBitmap.typed (b : SkBitmap) : Prop :=
  b.generationID < 4294967296 ∧
  -2147483648 ≤ b.pixelRefOriginX ∧ b.pixelRefOriginX < 2147483648 ∧
  -2147483648 ≤ b.pixelRefOriginY ∧ b.pixelRefOriginY < 2147483648

instance (b : SkBitmap) : Decidable b.typed := by
  unfold SkBitmap.typed; infer_instance

/-! ## Cache key derivation -/

/-- Modelled from the spec: `SkToS16` is declared in `SkTypes.h`, which is not
part of the sources at hand.  The spec says that dimensions outside the bounded
signed-integer range fail with RangeError, so the narrowing is checked. -/
def SkToS16 (x : Int) : Except SkError Int :=
  if -32768 ≤ x ∧ x ≤ 32767 then .ok x else .error .RangeError

/-- The object representation of an unsigned value: `n` bytes, least significant first. -/
def bytesLE : Nat → Nat → List Nat
  | 0, _ => []
  | n + 1, v => v % 256 :: bytesLE n (v / 256)

/-- The object representation of a two's-complement integer of `n` bytes. -/
def bytesOfInt (n : Nat) (x : Int) : List Nat :=
  bytesLE n (x % (256 ^ n : Nat)).toNat

/-- The number of key bytes that carry data. -/
def kKeyDataSize : Nat := 16

/-- Embedding of `generate_bitmap_cache_id`: the five `memcpy`s into
`key.fData8`, the `memset` of the rest of the key, and `id->reset(domain, key)`. -/
def generate_bitmap_cache_id (pf : Platform) (bitmap : SkBitmap) : Except SkError GrCacheID := do
  let genID := bitmap.generationID
  let originX := bitmap.pixelRefOriginX
  let originY := bitmap.pixelRefOriginY
  let width ← SkToS16 bitmap.width
  let height ← SkToS16 bitmap.height
  let key :=
    bytesLE 4 genID ++ bytesOfInt 4 originX ++ bytesOfInt 4 originY ++
      bytesOfInt 2 width ++ bytesOfInt 2 height ++
      List.replicate (pf.sizeofKey - kKeyDataSize) 0
  pure { domain := pf.gBitmapTextureDomain, key := key }

/-- Embedding of `SkBitmapConfig2GrPixelConfig`. -/
def SkBitmapConfig2GrPixelConfig (pf : Platform) (config : Config) : GrPixelConfig :=
  match config with
  | .kA8_Config => .kAlpha_8_GrPixelConfig
  | .kIndex8_Config => .kIndex_8_GrPixelConfig
  | .kRGB_565_Config => .kRGB_565_GrPixelConfig
  | .kARGB_4444_Config => .kRGBA_4444_GrPixelConfig
  | .kARGB_8888_Config => pf.kSkia8888_GrPixelConfig
  | _ => .kUnknown_GrPixelConfig

/-- A `GrTextureDesc`. -/
structure GrTextureDesc where
  fFlags : Nat
  fWidth : Nat
  fHeight : Nat
  fConfig : GrPixelConfig
  fSampleCnt : Nat
  deriving DecidableEq

/-- The flag value `kNone_GrTextureFlags`. -/
def kNone_GrTextureFlags : Nat := 0

/-- Embedding of `generate_bitmap_texture_desc`. -/
def generate_bitmap_texture_desc (pf : Platform) (bitmap : SkBitmap) : GrTextureDesc :=
  { fFlags := kNone_GrTextureFlags
    fWidth := bitmap.width
    fHeight := bitmap.height
    fConfig := SkBitmapConfig2GrPixelConfig pf bitmap.config
    fSampleCnt := 0 }

/-! ## The palette / index packer -/

/-- Modelled from the spec: `kGrColorTableSize` is declared in `GrTypes.h`, which
is not part of the sources at hand.  The spec sizes the palette region for the
maximum of 256 four-byte entries, 1024 bytes. -/
def kGrColorTableSize : Nat := 256 * 4

/-- Modelled from the spec: `SkBitmap::readyToDraw` is declared in `SkBitmap.h`,
which is not part of the sources at hand.  A source is ready when locking it
yields pixel memory, and for a palette-indexed source also a colour table. -/
def SkBitmap.readyToDraw (b : SkBitmap) : Bool :=
  b.pixels.isSome && (b.config != Config.kIndex8_Config || b.colorTable.isSome)

/-- Modelled from the spec: `SkBitmap::getSize` is declared in `SkBitmap.h`; it is
the byte size of the pixel memory, `height` rows of `rowBytes` bytes. -/
def SkBitmap.getSize (b : SkBitmap) : Nat :=
  b.height * b.rowBytes

/-- The destination block of `build_compressed_data` together with the trace of
the memory accesses made so far: offsets stored to in the destination, offsets
loaded from the pixel memory, and colour-table indices loaded. -/
structure Mem where
  buf : List Nat
  writes : List Nat
  srcReads : List Nat
  ctReads : List Nat
  deriving DecidableEq

/-- Store one byte at offset `off` of the destination. -/
def Mem.store (m : Mem) (off v : Nat) : Mem :=
  { m with buf := m.buf.set off v, writes := off :: m.writes }

/-- The libc routine `memcpy(dst, src + so, n)` into the destination block:
bytes are copied in ascending order, each load and store is traced. -/
def memcpy (m : Mem) (dst : Nat) (src : List Nat) (so : Nat) : Nat → Mem
  | 0 => m
  | n + 1 =>
    let m1 := memcpy m dst src so n
    { m1.store (dst + n) (src.getD (so + n) 0) with srcReads := (so + n) :: m1.srcReads }

/-- Store the bytes `bs` at consecutive offsets from `off`. -/
def Mem.storeBytes (m : Mem) (off : Nat) : List Nat → Mem
  | [] => m
  | v :: bs => (m.store off v).storeBytes (off + 1) bs

/-- Modelled from the spec: `SkSrcPixelInfo::convertPixelsTo` lives in
`SkConfig8888.cpp`, which is not part of the sources at hand.  Palette entries
are converted from their native colour representation to the packed
representation the GPU expects before copying: entry `i` of the `count` entries
is loaded, converted and stored as four bytes at offset `4 * i` of the
destination (`dstPI.fPixels = buffer`). -/
def convertPixelsTo (pf : Platform) (m : Mem) (colors : List Nat) : Nat → Mem
  | 0 => m
  | i + 1 =>
    let m1 := convertPixelsTo pf m colors i
    { m1.storeBytes (4 * i) (bytesLE 4 (pf.convertColor (colors.getD i 0))) with
      ctReads := i :: m1.ctReads }

/-- The row loop of `build_compressed_data` (lines 65 to 69): `n` rows remain,
`src` and `dst` are the running offsets. -/
def copyRows (pixels : List Nat) (width rowBytes : Nat) : Nat → Mem → Nat → Nat → Mem
  | 0, m, _, _ => m
  | n + 1, m, src, dst =>
    copyRows pixels width rowBytes n (memcpy m dst pixels src width) (src + rowBytes) (dst + width)

/-- Embedding of `build_compressed_data`: returns the destination block and the
access trace.  A bitmap that is not ready to draw leaves the block untouched. -/
def build_compressed_data (pf : Platform) (buffer : List Nat) (bitmap : SkBitmap) : Mem :=
  let m0 : Mem := { buf := buffer, writes := [], srcReads := [], ctReads := [] }
  if !bitmap.readyToDraw then m0
  else
    match bitmap.colorTable, bitmap.pixels with
    | some ctable, some pixels =>
      let count := ctable.length
      let m1 := convertPixelsTo pf m0 ctable count
      -- always skip a full 256 number of entries
      let dst := kGrColorTableSize
      if bitmap.width = bitmap.rowBytes then
        memcpy m1 dst pixels 0 bitmap.getSize
      else
        copyRows pixels bitmap.width bitmap.rowBytes bitmap.height m1 0 dst
    | _, _ => m0

/-- The block `SkAutoMalloc storage(size)` provides: `size` bytes whose contents
are whatever the heap held. -/
def SkAutoMalloc (pf : Platform) (size : Nat) : List Nat :=
  (List.range size).map pf.heap

/-- Lines 141 to 144 of `sk_gr_create_bitmap_texture`: allocate
`width * height + kGrColorTableSize` bytes and let `build_compressed_data` fill
them; the result is the data handed to the GPU. -/
def index8_upload_buffer (pf : Platform) (bitmap : SkBitmap) : List Nat :=
  let imagesize := bitmap.width * bitmap.height + kGrColorTableSize
  let storage := SkAutoMalloc pf imagesize
  (build_compressed_data pf storage bitmap).buf

/-! ## The GrContext collaborator and the texture request -/

/-- A `GrTextureParams` value (tile modes and filter), seen only as a fingerprint;
a NULL `params` pointer is `none`. -/
structure GrTextureParams where
  bits : Nat
  deriving DecidableEq

/-- A handle to a `GrTexture`. -/
structure GrTexture where
  id : Nat
  deriving DecidableEq

/-- A `GrResourceKey`, as `createTexture` reports it through its last argument. -/
structure GrResourceKey where
  bits : Nat
  deriving DecidableEq

/-- Values of `GrContext::ScratchTexMatch`. -/
inductive ScratchTexMatch where
  | kExact_ScratchTexMatch
  | kApprox_ScratchTexMatch
  deriving DecidableEq

/-- A call that `SkGr.cpp` makes on a collaborator, with the arguments passed.
Memory passed by pointer is recorded by its contents. -/
inductive GrCall where
  | supportsIndex8PixelConfig (params : Option GrTextureParams) (width height : Nat)
  | findAndRefTexture (desc : GrTextureDesc) (cacheID : GrCacheID)
      (params : Option GrTextureParams)
  | isTextureInCache (desc : GrTextureDesc) (cacheID : GrCacheID)
      (params : Option GrTextureParams)
  | createTexture (params : Option GrTextureParams) (desc : GrTextureDesc)
      (cacheID : GrCacheID) (srcData : List Nat) (rowBytes : Nat)
  | lockAndRefScratchTexture (desc : GrTextureDesc) (matching : ScratchTexMatch)
  | writePixels (texture : GrTexture) (left top width height : Nat)
      (config : GrPixelConfig) (buffer : List Nat) (rowBytes : Nat)
  | addGenIDChangeListener (pixelRef : Nat) (key : GrResourceKey)
  | GrPrintf (width height : Nat)
  deriving DecidableEq

/-- The answers of the `GrContext`.  Each answer may depend on the calls made
before it (the first argument), which covers any internal state of the context. -/
structure GrContext where
  supportsIndex8PixelConfig : List GrCall → Option GrTextureParams → Nat → Nat → Bool
  findAndRefTexture :
    List GrCall → GrTextureDesc → GrCacheID → Option GrTextureParams → Option GrTexture
  isTextureInCache :
    List GrCall → GrTextureDesc → GrCacheID → Option GrTextureParams → Bool
  createTexture :
    List GrCall → Option GrTextureParams → GrTextureDesc → GrCacheID → List Nat → Nat →
      Option GrTexture × GrResourceKey
  lockAndRefScratchTexture :
    List GrCall → GrTextureDesc → ScratchTexMatch → Option GrTexture

/-- What a request did: the collaborator calls it made, oldest first, and how it
ended, with the returned pointer (`none` for NULL) or with a failure. -/
structure Run where
  calls : List GrCall
  result : Except SkError (Option GrTexture)

/-- Lines 176 to 205 of `sk_gr_create_bitmap_texture`: `bitmap` is the bitmap
whose pixels are uploaded (the original, or its 32-bit copy), `calls` the calls
made so far by this request, `hist` the calls made before the request. -/
def upload_pixels (pf : Platform) (ctx : GrContext) (hist calls : List GrCall) (cache : Bool)
    (params : Option GrTextureParams) (origBitmap bitmap : SkBitmap) (desc : GrTextureDesc) :
    Run :=
  if !bitmap.readyToDraw then
    { calls := calls, result := .ok none }
  else
    let pixels := bitmap.pixels.getD []
    if cache then
      match generate_bitmap_cache_id pf origBitmap with
      | .error e => { calls := calls, result := .error e }
      | .ok cacheID =>
        let created :=
          ctx.createTexture (hist ++ calls) params desc cacheID pixels bitmap.rowBytes
        let calls1 := calls ++ [GrCall.createTexture params desc cacheID pixels bitmap.rowBytes]
        match created.1 with
        | some result =>
          { calls := calls1 ++ [GrCall.addGenIDChangeListener origBitmap.pixelRef created.2]
            result := .ok (some result) }
        | none => { calls := calls1, result := .ok none }
    else
      let acquired :=
        ctx.lockAndRefScratchTexture (hist ++ calls) desc .kExact_ScratchTexMatch
      let calls1 := calls ++ [GrCall.lockAndRefScratchTexture desc .kExact_ScratchTexMatch]
      match acquired with
      | none => { calls := calls1, result := .error .NullDeref }
      | some result =>
        { calls := calls1 ++ [GrCall.writePixels result 0 0 bitmap.width bitmap.height
            desc.fConfig pixels bitmap.rowBytes]
          result := .ok (some result) }

/-- Embedding of `sk_gr_create_bitmap_texture`.  `hist` holds the calls made
before this one; the `Run` lists the calls made here. -/
def sk_gr_create_bitmap_texture (pf : Platform) (ctx : GrContext) (hist : List GrCall)
    (cache : Bool) (params : Option GrTextureParams) (origBitmap : SkBitmap) : Run :=
  let desc := generate_bitmap_texture_desc pf origBitmap
  if origBitmap.config = Config.kIndex8_Config then
    let calls := [GrCall.supportsIndex8PixelConfig params origBitmap.width origBitmap.height]
    if ctx.supportsIndex8PixelConfig hist params origBitmap.width origBitmap.height then
      let storage := index8_upload_buffer pf origBitmap
      if cache then
        match generate_bitmap_cache_id pf origBitmap with
        | .error e => { calls := calls, result := .error e }
        | .ok cacheID =>
          let created :=
            ctx.createTexture (hist ++ calls) params desc cacheID storage origBitmap.width
          let calls1 :=
            calls ++ [GrCall.createTexture params desc cacheID storage origBitmap.width]
          match created.1 with
          | some result =>
            { calls := calls1 ++ [GrCall.addGenIDChangeListener origBitmap.pixelRef created.2]
              result := .ok (some result) }
          | none => { calls := calls1, result := .ok none }
      else
        let acquired :=
          ctx.lockAndRefScratchTexture (hist ++ calls) desc .kExact_ScratchTexMatch
        let calls1 := calls ++ [GrCall.lockAndRefScratchTexture desc .kExact_ScratchTexMatch]
        match acquired with
        | none => { calls := calls1, result := .error .NullDeref }
        | some result =>
          { calls := calls1 ++ [GrCall.writePixels result 0 0 origBitmap.width
              origBitmap.height desc.fConfig storage 0]
            result := .ok (some result) }
    else
      let tmpBitmap := pf.copyTo origBitmap
      let desc1 := { desc with fConfig := SkBitmapConfig2GrPixelConfig pf tmpBitmap.config }
      upload_pixels pf ctx hist calls cache params origBitmap tmpBitmap desc1
  else
    upload_pixels pf ctx hist [] cache params origBitmap origBitmap desc

/-- Embedding of `GrIsBitmapInCache`. -/
def GrIsBitmapInCache (pf : Platform) (ctx : GrContext) (hist : List GrCall)
    (bitmap : SkBitmap) (params : Option GrTextureParams) : Except SkError Bool := do
  let cacheID ← generate_bitmap_cache_id pf bitmap
  let desc := generate_bitmap_texture_desc pf bitmap
  pure (ctx.isTextureInCache hist desc cacheID params)

/-- Lines 222 to 236 of `GrLockAndRefCachedBitmapTexture`: the lookup made for a
bitmap that is not volatile. -/
def lookup_cached (pf : Platform) (ctx : GrContext) (hist : List GrCall)
    (bitmap : SkBitmap) (params : Option GrTextureParams) : Run :=
  let cache := !bitmap.isVolatile
  if cache then
    match generate_bitmap_cache_id pf bitmap with
    | .error e => { calls := [], result := .error e }
    | .ok cacheID =>
      let desc := generate_bitmap_texture_desc pf bitmap
      { calls := [GrCall.findAndRefTexture desc cacheID params]
        result := .ok (ctx.findAndRefTexture hist desc cacheID params) }
  else
    { calls := [], result := .ok none }

/-- Embedding of `GrLockAndRefCachedBitmapTexture`: lookup, creation when the
lookup gave NULL, and the failure report when the result is still NULL. -/
def GrLockAndRefCachedBitmapTexture (pf : Platform) (ctx : GrContext) (hist : List GrCall)
    (bitmap : SkBitmap) (params : Option GrTextureParams) : Run :=
  let cache := !bitmap.isVolatile
  let found := lookup_cached pf ctx hist bitmap params
  let made : Run :=
    match found.result with
    | .ok none =>
      let r := sk_gr_create_bitmap_texture pf ctx (hist ++ found.calls) cache params bitmap
      { calls := found.calls ++ r.calls, result := r.result }
    | _ => found
  match made.result with
  | .ok none =>
    { calls := made.calls ++ [GrCall.GrPrintf bitmap.width bitmap.height], result := .ok none }
  | _ => made

/-- The data and row stride a call hands over for upload, if it is an upload. -/
def GrCall.upload : GrCall → Option (List Nat × Nat)
  | .createTexture _ _ _ srcData rowBytes => some (srcData, rowBytes)
  | .writePixels _ _ _ _ _ _ buffer rowBytes => some (buffer, rowBytes)
  | _ => none

/-- The uploads of a request, in order. -/
def Run.uploads (r : Run) : List (List Nat × Nat) :=
  r.calls.filterMap GrCall.upload

/-- Recogniser of `findAndRefTexture` calls. -/
def GrCall.isFindAndRefTexture : GrCall → Bool
  | .findAndRefTexture _ _ _ => true
  | _ => false

/-- Recogniser of `createTexture` calls. -/
def GrCall.isCreateTexture : GrCall → Bool
  | .createTexture _ _ _ _ _ => true
  | _ => false

/-- Recogniser of `lockAndRefScratchTexture` calls. -/
def GrCall.isLockAndRefScratchTexture : GrCall → Bool
  | .lockAndRefScratchTexture _ _ => true
  | _ => false

/-- Recogniser of `writePixels` calls. -/
def GrCall.isWritePixels : GrCall → Bool
  | .writePixels _ _ _ _ _ _ _ _ => true
  | _ => false

/-- Recogniser of listener attachments. -/
def GrCall.isAddGenIDChangeListener : GrCall → Bool
  | .addGenIDChangeListener _ _ => true
  | _ => false

/-- Recogniser of the failure report. -/
def GrCall.isGrPrintf : GrCall → Bool
  | .GrPrintf _ _ => true
  | _ => false

/-- The triple (descriptor, cache id, params) that a call addresses the keyed
cache with, for the calls that do. -/
def GrCall.keyTriple : GrCall → Option (GrTextureDesc × GrCacheID × Option GrTextureParams)
  | .findAndRefTexture desc cacheID params => some (desc, cacheID, params)
  | .isTextureInCache desc cacheID params => some (desc, cacheID, params)
  | .createTexture params desc cacheID _ _ => some (desc, cacheID, params)
  | _ => none

/-- Calls that touch the keyed cache: lookup, creation, listener attachment. -/
def GrCall.touchesCache (c : GrCall) : Bool :=
  c.isFindAndRefTexture || c.isCreateTexture || c.isAddGenIDChangeListener

/-- Dimensions that the 16-bit key fields can hold. -/
def SkBitmap.fitsS16 (b : SkBitmap) : Prop :=
  (b.width : Int) ≤ 32767 ∧ (b.height : Int) ≤ 32767

instance (b : SkBitmap) : Decidable b.fitsS16 := by
  unfold SkBitmap.fitsS16; infer_instance

deriving instance DecidableEq for Except

/-- The bitmap whose pixels a request uploads: the 32-bit copy made by `copyTo`
for an index-8 bitmap on a context without index-8 support (lines 169 to 171),
the bitmap itself otherwise.  `hist` holds the calls made before the context
is asked for index-8 support. -/
def upload_source (pf : Platform) (ctx : GrContext) (hist : List GrCall)
    (params : Option GrTextureParams) (bitmap : SkBitmap) : SkBitmap :=
  if bitmap.config = Config.kIndex8_Config ∧
      ctx.supportsIndex8PixelConfig hist params bitmap.width bitmap.height = false then
    pf.copyTo bitmap
  else
    bitmap

/-- Whether a request takes the index-8 path (lines 141 to 167): the bitmap is
index-8 and the context supports index-8 textures of its size. -/
def index8_supported (ctx : GrContext) (hist : List GrCall)
    (params : Option GrTextureParams) (bitmap : SkBitmap) : Bool :=
  decide (bitmap.config = Config.kIndex8_Config) &&
    ctx.supportsIndex8PixelConfig hist params bitmap.width bitmap.height

/-- The calls a request makes before it creates or acquires a texture: the
question for index-8 support, asked for index-8 bitmaps only. -/
def upload_prelude (params : Option GrTextureParams) (bitmap : SkBitmap) : List GrCall :=
  if bitmap.config = Config.kIndex8_Config then
    [GrCall.supportsIndex8PixelConfig params bitmap.width bitmap.height]
  else
    []

/-- The descriptor a request creates or acquires its texture with: the one of
`generate_bitmap_texture_desc`, with the pixel config of the bitmap uploaded. -/
def upload_desc (pf : Platform) (ctx : GrContext) (hist : List GrCall)
    (params : Option GrTextureParams) (bitmap : SkBitmap) : GrTextureDesc :=
  { generate_bitmap_texture_desc pf bitmap with
    fConfig := SkBitmapConfig2GrPixelConfig pf (upload_source pf ctx hist params bitmap).config }

/-- The bytes a request hands over for upload: the packed palette and indices on
the index-8 path, the pixel memory of the uploaded bitmap otherwise. -/
def upload_data (pf : Platform) (ctx : GrContext) (hist : List GrCall)
    (params : Option GrTextureParams) (bitmap : SkBitmap) : List Nat :=
  if index8_supported ctx hist params bitmap then index8_upload_buffer pf bitmap
  else (upload_source pf ctx hist params bitmap).pixels.getD []

/-- The general path of `build_compressed_data` (lines 61 to 69) taken whatever
the row stride: the palette conversion followed by the row-by-row trimming loop. -/
def build_compressed_data_row_by_row (pf : Platform) (buffer : List Nat) (bitmap : SkBitmap) :
    Mem :=
  let m0 : Mem := { buf := buffer, writes := [], srcReads := [], ctReads := [] }
  if !bitmap.readyToDraw then m0
  else
    match bitmap.colorTable, bitmap.pixels with
    | some ctable, some pixels =>
      let count := ctable.length
      let m1 := convertPixelsTo pf m0 ctable count
      let dst := kGrColorTableSize
      copyRows pixels bitmap.width bitmap.rowBytes bitmap.height m1 0 dst
    | _, _ => m0

/-! ## Colour types and pixel configs -/

/-- Values of `SkColorType` that `SkImageInfo2GrPixelConfig` switches on. -/
inductive SkColorType where
  | kUnknown_SkColorType
  | kAlpha_8_SkColorType
  | kRGB_565_SkColorType
  | kARGB_4444_SkColorType
  | kRGBA_8888_SkColorType
  | kBGRA_8888_SkColorType
  | kIndex_8_SkColorType
  deriving DecidableEq

/-- Values of `SkAlphaType`. -/
inductive SkAlphaType where
  | kIgnore_SkAlphaType
  | kOpaque_SkAlphaType
  | kPremul_SkAlphaType
  | kUnpremul_SkAlphaType
  deriving DecidableEq

/-- Embedding of `SkImageInfo2GrPixelConfig`; the alpha type is ignored. -/
def SkImageInfo2GrPixelConfig (ct : SkColorType) (_at : SkAlphaType) : GrPixelConfig :=
  match ct with
  | .kUnknown_SkColorType => .kUnknown_GrPixelConfig
  | .kAlpha_8_SkColorType => .kAlpha_8_GrPixelConfig
  | .kRGB_565_SkColorType => .kRGB_565_GrPixelConfig
  | .kARGB_4444_SkColorType => .kRGBA_4444_GrPixelConfig
  | .kRGBA_8888_SkColorType => .kRGBA_8888_GrPixelConfig
  | .kBGRA_8888_SkColorType => .kBGRA_8888_GrPixelConfig
  | .kIndex_8_SkColorType => .kIndex_8_GrPixelConfig

/-- Embedding of `GrPixelConfig2ColorType`.  `ctOut` is the out-pointer: `none`
for NULL, `some v` for a pointer to a variable that holds `v`.  The result is
the returned flag and the state of the out-pointer after the call. -/
def GrPixelConfig2ColorType (config : GrPixelConfig) (ctOut : Option SkColorType) :
    Bool × Option SkColorType :=
  let assign (ct : SkColorType) : Bool × Option SkColorType :=
    (true, ctOut.map (fun _ => ct))
  match config with
  | .kAlpha_8_GrPixelConfig => assign .kAlpha_8_SkColorType
  | .kIndex_8_GrPixelConfig => assign .kIndex_8_SkColorType
  | .kRGB_565_GrPixelConfig => assign .kRGB_565_SkColorType
  | .kRGBA_4444_GrPixelConfig => assign .kARGB_4444_SkColorType
  | .kRGBA_8888_GrPixelConfig => assign .kRGBA_8888_SkColorType
  | .kBGRA_8888_GrPixelConfig => assign .kBGRA_8888_SkColorType
  | _ => (false, ctOut)

/-! ## Invalidation -/

/-- A `GrResourceInvalidatedMessage`: the key of the resource to drop. -/
structure GrResourceInvalidatedMessage where
  key : GrResourceKey
  deriving DecidableEq

/-- Modelled from the spec: `SkMessageBus` is declared in `SkMessageBus.h`, which
is not part of the sources at hand.  The bus is a queue: a posted message stays
queued until the cache owner drains the bus. -/
structure SkMessageBus where
  inbox : List GrResourceInvalidatedMessage
  deriving DecidableEq

/-- Modelled from the spec: `SkMessageBus::Post` is declared in `SkMessageBus.h`;
posting puts the message at the end of the queue. -/
def SkMessageBus.Post (bus : SkMessageBus) (message : GrResourceInvalidatedMessage) :
    SkMessageBus :=
  { inbox := bus.inbox ++ [message] }

/-- Modelled from the spec: a CacheEntry of the texture cache, which lives in
`GrResourceCache.h`, not part of the sources at hand.  `key` is the effective
lookup key (identity key and parameter fingerprint), `resource` the texture. -/
structure CacheEntry where
  key : GrResourceKey
  resource : GrTexture
  deriving DecidableEq

/-- Modelled from the spec: the TextureCache (`GrResourceCache`), a map from
effective key to resource, kept as a list of entries. -/
structure GrResourceCache where
  entries : List CacheEntry
  deriving DecidableEq

/-- The state an invalidation acts on: the message bus and the texture cache of
one rendering context. -/
structure InvalidationState where
  bus : SkMessageBus
  cache : GrResourceCache
  deriving DecidableEq

/-- Modelled from the spec: `lookup` of the TextureCache, an exact match of the
effective key. -/
def GrResourceCache.find (cache : GrResourceCache) (key : GrResourceKey) : Option GrTexture :=
  (cache.entries.find? (fun e => e.key = key)).map (fun e => e.resource)

/-- Modelled from the spec: `insert` of the TextureCache stores an entry. -/
def GrResourceCache.insert (cache : GrResourceCache) (key : GrResourceKey)
    (resource : GrTexture) : GrResourceCache :=
  { entries := { key := key, resource := resource } :: cache.entries }

/-- Modelled from the spec: draining the bus.  The cache owner takes every queued
message and evicts all entries whose key matches one of them; the bus is empty
afterwards. -/
def InvalidationState.purgeInvalidated (s : InvalidationState) : InvalidationState :=
  { bus := { inbox := [] }
    cache :=
      { entries :=
          s.cache.entries.filter (fun e => !(s.bus.inbox.any (fun m => m.key = e.key))) } }

/-- Modelled from the spec: `GrContext::findAndRefTexture` over the texture
cache.  `computeKey` stands for `GrTextureImpl::ComputeKey`, which combines
`params`, `desc` and the cache id into the effective key; it is the key that
`createTexture` reports through its last argument. -/
def GrResourceCache.findAndRefTexture
    (computeKey : Option GrTextureParams → GrTextureDesc → GrCacheID → GrResourceKey)
    (cache : GrResourceCache) (desc : GrTextureDesc) (cacheID : GrCacheID)
    (params : Option GrTextureParams) : Option GrTexture :=
  cache.find (computeKey params desc cacheID)

/-- Embedding of the class `GrResourceInvalidator`: a gen-ID change listener that
holds the key of the resource it invalidates. -/
structure GrResourceInvalidator where
  fKey : GrResourceKey
  deriving DecidableEq

/-- Embedding of `GrResourceInvalidator::onChange`: build the message `{ fKey }`
and post it to the bus. -/
def GrResourceInvalidator.onChange (self : GrResourceInvalidator) (s : InvalidationState) :
    InvalidationState :=
  let message : GrResourceInvalidatedMessage := { key := self.fKey }
  { s with bus := s.bus.Post message }

/-- Modelled from the spec: the pixel source (`SkPixelRef`, declared in
`SkPixelRef.h`, not part of the sources at hand) as far as invalidation goes:
its generation id and the one-shot listeners attached to it. -/
structure SkPixelRef where
  generationID : Nat
  listeners : List GrResourceInvalidator
  deriving DecidableEq

/-- Modelled from the spec: `SkPixelRef::addGenIDChangeListener` registers a
one-shot observer on the source. -/
def SkPixelRef.addGenIDChangeListener (pixelRef : SkPixelRef)
    (listener : GrResourceInvalidator) : SkPixelRef :=
  { pixelRef with listeners := pixelRef.listeners ++ [listener] }

/-- Embedding of `add_genID_listener`. -/
def add_genID_listener (key : GrResourceKey) (pixelRef : SkPixelRef) : SkPixelRef :=
  pixelRef.addGenIDChangeListener { fKey := key }

/-- Modelled from the spec: the generation id of the source changes.  Every
attached listener fires exactly once, in order of attachment, and is
deregistered. -/
def SkPixelRef.notifyPixelsChanged (pixelRef : SkPixelRef) (s : InvalidationState) :
    SkPixelRef × InvalidationState :=
  ({ generationID := pixelRef.generationID + 1, listeners := [] },
    pixelRef.listeners.foldl (fun st l => l.onChange st) s)

/-! ## Bicubic sampling (`src/core/SkBitmapProcBicubic.cpp`) -/

/-- Byte order of a packed `SkPMColor`, as the `SK_x32_SHIFT` constants of the
build fix it: alpha in the top byte, green in the second, red and blue in the
lowest and the third byte, either way round. -/
inductive SkPMColorOrder where
  | kRGBA
  | kBGRA
  deriving DecidableEq

/-- What `SkBitmapProcBicubic.cpp` takes from headers that are not part of the
sources at hand: `SkClampMax` (`SkTypes.h`), `SkFixedRoundToInt` (`SkFixed.h`)
and the byte order behind the packing macros (`SkColorPriv.h`). -/
structure SkCore where
  SkClampMax : Int → Int → Int
  SkFixedRoundToInt : Int → Int
  order : SkPMColorOrder

/-- The contract of `SkClampMax(value, max)`: the value pinned to the range
`0 .. max`, which is the clamp tile mode the bicubic proc is chosen for. -/
def SkCore.clampsToRange (core : SkCore) : Prop :=
  ∀ value max : Int,
    core.SkClampMax value max = if value < 0 then 0 else if max < value then max else value

/-- The constant `SK_A32_SHIFT`. -/
def SK_A32_SHIFT (_core : SkCore) : Nat := 24

/-- The constant `SK_R32_SHIFT`. -/
def SK_R32_SHIFT (core : SkCore) : Nat :=
  match core.order with
  | .kRGBA => 0
  | .kBGRA => 16

/-- The constant `SK_G32_SHIFT`. -/
def SK_G32_SHIFT (_core : SkCore) : Nat := 8

/-- The constant `SK_B32_SHIFT`. -/
def SK_B32_SHIFT (core : SkCore) : Nat :=
  match core.order with
  | .kRGBA => 16
  | .kBGRA => 0

/-- The shape of the `SkGetPackedX32` macros of `SkColorPriv.h`:
`((uint32_t)((packed) << (24 - SHIFT)) >> 24)`. -/
def SkGetPacked32 (shift : Nat) (packed : Nat) : Nat :=
  ((packed <<< (24 - shift)) % 4294967296) >>> 24

/-- The macro `SkGetPackedA32`. -/
def SkGetPackedA32 (core : SkCore) (packed : Nat) : Nat :=
  SkGetPacked32 (SK_A32_SHIFT core) packed

/-- The macro `SkGetPackedR32`. -/
def SkGetPackedR32 (core : SkCore) (packed : Nat) : Nat :=
  SkGetPacked32 (SK_R32_SHIFT core) packed

/-- The macro `SkGetPackedG32`. -/
def SkGetPackedG32 (core : SkCore) (packed : Nat) : Nat :=
  SkGetPacked32 (SK_G32_SHIFT core) packed

/-- The macro `SkGetPackedB32`. -/
def SkGetPackedB32 (core : SkCore) (packed : Nat) : Nat :=
  SkGetPacked32 (SK_B32_SHIFT core) packed

/-- An `int` passed for an `unsigned` (`U8CPU`) parameter. -/
def toU8CPU (x : Int) : Nat :=
  (x % 4294967296).toNat

/-- A left shift of a 32-bit unsigned value. -/
def shl32 (x shift : Nat) : Nat :=
  (x <<< shift) % 4294967296

/-- The function `SkPackARGB32` of `SkColorPriv.h`:
`(a << SK_A32_SHIFT) | (r << SK_R32_SHIFT) | (g << SK_G32_SHIFT) | (b << SK_B32_SHIFT)`. -/
def SkPackARGB32 (core : SkCore) (a r g b : Int) : Nat :=
  shl32 (toU8CPU a) (SK_A32_SHIFT core) ||| shl32 (toU8CPU r) (SK_R32_SHIFT core) |||
    shl32 (toU8CPU g) (SK_G32_SHIFT core) ||| shl32 (toU8CPU b) (SK_B32_SHIFT core)

/-- The macro `MUL` of the source. -/
def MUL (a b : Int) : Int := a * b

/-- A value stored in an `SkFixed`, a 32-bit two's-complement integer. -/
def toSkFixed (x : Int) : Int :=
  (x + 2147483648) % 4294967296 - 2147483648

/-- Embedding of `cubicBlend`. -/
def cubicBlend (core : SkCore) (cc : Fin 4 → Int) (c0 c1 c2 c3 : Nat) : Nat :=
  let fa := toSkFixed (MUL (cc 0) (SkGetPackedA32 core c0) + MUL (cc 1) (SkGetPackedA32 core c1) +
    MUL (cc 2) (SkGetPackedA32 core c2) + MUL (cc 3) (SkGetPackedA32 core c3))
  let fr := toSkFixed (MUL (cc 0) (SkGetPackedR32 core c0) + MUL (cc 1) (SkGetPackedR32 core c1) +
    MUL (cc 2) (SkGetPackedR32 core c2) + MUL (cc 3) (SkGetPackedR32 core c3))
  let fg := toSkFixed (MUL (cc 0) (SkGetPackedG32 core c0) + MUL (cc 1) (SkGetPackedG32 core c1) +
    MUL (cc 2) (SkGetPackedG32 core c2) + MUL (cc 3) (SkGetPackedG32 core c3))
  let fb := toSkFixed (MUL (cc 0) (SkGetPackedB32 core c0) + MUL (cc 1) (SkGetPackedB32 core c1) +
    MUL (cc 2) (SkGetPackedB32 core c2) + MUL (cc 3) (SkGetPackedB32 core c3))
  let a := core.SkClampMax (core.SkFixedRoundToInt fa) 255
  let r := core.SkClampMax (core.SkFixedRoundToInt fr) a
  let g := core.SkClampMax (core.SkFixedRoundToInt fg) a
  let b := core.SkClampMax (core.SkFixedRoundToInt fb) a
  SkPackARGB32 core a r g b

/-- A value stored in an `int`, a 32-bit two's-complement integer: a sum or
difference that leaves the range `-2147483648 .. 2147483647` wraps around. -/
def toInt32 (x : Int) : Int :=
  (x + 2147483648) % 4294967296 - 2147483648

/-- Lines 55 and 75 to 78 of `bicubicFilter`: the four sample columns
`x0, x1, x2, x3` for the source column `sx`.  The expressions `sx - 1`,
`sx + 1` and `sx + 2` are computed in 32-bit `int`; `width() - 1` cannot leave
the range, a width being non-negative. -/
def bicubicFilter_xs (core : SkCore) (bitmap : SkBitmap) (sx : Int) : List Int :=
  let maxX : Int := bitmap.width - 1
  [core.SkClampMax (toInt32 (sx - 1)) maxX, core.SkClampMax sx maxX,
    core.SkClampMax (toInt32 (sx + 1)) maxX, core.SkClampMax (toInt32 (sx + 2)) maxX]

/-- Lines 56 and 79 to 82 of `bicubicFilter`: the four sample rows
`y0, y1, y2, y3` for the source row `sy`.  The expressions `sy - 1`, `sy + 1`
and `sy + 2` are computed in 32-bit `int`. -/
def bicubicFilter_ys (core : SkCore) (bitmap : SkBitmap) (sy : Int) : List Int :=
  let maxY : Int := bitmap.height - 1
  [core.SkClampMax (toInt32 (sy - 1)) maxY, core.SkClampMax sy maxY,
    core.SkClampMax (toInt32 (sy + 1)) maxY, core.SkClampMax (toInt32 (sy + 2)) maxY]

/-- Lines 84 to 102 of `bicubicFilter`: the coordinates `(x, y)` of the 16
`getAddr32` reads, in the order the source makes them (row `y0` first, columns
`x0` to `x3` within a row). -/
def bicubicFilter_samples (core : SkCore) (bitmap : SkBitmap) (sx sy : Int) :
    List (Int × Int) :=
  (bicubicFilter_ys core bitmap sy).flatMap
    (fun y => (bicubicFilter_xs core bitmap sx).map (fun x => (x, y)))

/-- Lines 84 to 104 of `bicubicFilter`: the colour stored for one destination
pixel, from the pixels `getAddr32` yields and the coefficient arrays built for
the fractional position. -/
def bicubicFilter_color (core : SkCore) (bitmap : SkBitmap) (getAddr32 : Int → Int → Nat)
    (coeffX coeffY : Fin 4 → Int) (sx sy : Int) : Nat :=
  let xs := bicubicFilter_xs core bitmap sx
  let ys := bicubicFilter_ys core bitmap sy
  let row (y : Int) : Nat :=
    cubicBlend core coeffX (getAddr32 (xs.getD 0 0) y) (getAddr32 (xs.getD 1 0) y)
      (getAddr32 (xs.getD 2 0) y) (getAddr32 (xs.getD 3 0) y)
  cubicBlend core coeffY (row (ys.getD 0 0)) (row (ys.getD 1 0)) (row (ys.getD 2 0))
    (row (ys.getD 3 0))

/-! ## Concrete inputs -/

/-- A platform with a 16-byte key, heap blocks filled with zero bytes and an
identity palette conversion. -/
def examplePlatform : Platform :=
  { sizeofKey := 16
    gBitmapTextureDomain := 1
    kSkia8888_GrPixelConfig := .kBGRA_8888_GrPixelConfig
    convertColor := fun c => c
    heap := fun _ => 0
    copyTo := fun b => { b with config := .kARGB_8888_Config, colorTable := none } }

/-- A context that supports index-8 textures, never finds a cached texture,
creates texture 1 under resource key 5, and hands out a fresh scratch texture on
every acquisition. -/
def exampleContext : GrContext :=
  { supportsIndex8PixelConfig := fun _ _ _ _ => true
    findAndRefTexture := fun _ _ _ _ => none
    isTextureInCache := fun _ _ _ _ => false
    createTexture := fun _ _ _ _ _ _ => (some ⟨1⟩, ⟨5⟩)
    lockAndRefScratchTexture := fun hist _ _ => some ⟨100 + hist.length⟩ }

/-- A 2 by 2 index-8 bitmap with a row stride of 4 bytes and 3 palette colours. -/
def exampleIndex8 : SkBitmap :=
  { config := .kIndex8_Config
    width := 2
    height := 2
    rowBytes := 4
    pixels := some [0, 1, 9, 9, 2, 1, 9, 9]
    colorTable := some [4278190335, 4278255360, 4294901760]
    generationID := 1
    pixelRefOriginX := 0
    pixelRefOriginY := 0
    isVolatile := false
    pixelRef := 7 }

/-- A 4 by 4 index-8 bitmap with 3 palette colours whose pixels cannot be locked. -/
def exampleNotReady : SkBitmap :=
  { config := .kIndex8_Config
    width := 4
    height := 4
    rowBytes := 4
    pixels := none
    colorTable := some [4278190335, 4278255360, 4294901760]
    generationID := 1
    pixelRefOriginX := 0
    pixelRefOriginY := 0
    isVolatile := false
    pixelRef := 7 }

/-- A 10 by 5 bitmap of 4 bytes per pixel with a row stride of 48 bytes. -/
def exampleDirect : SkBitmap :=
  { config := .kARGB_8888_Config
    width := 10
    height := 5
    rowBytes := 48
    pixels := some (List.range 240)
    colorTable := none
    generationID := 1
    pixelRefOriginX := 0
    pixelRefOriginY := 0
    isVolatile := false
    pixelRef := 8 }

/-- The bitmap `exampleDirect` marked volatile. -/
def exampleVolatile : SkBitmap :=
  { exampleDirect with isVolatile := true }

/-- A 2 by 2 index-8 bitmap whose row stride equals its width. -/
def exampleIndex8Tight : SkBitmap :=
  { exampleIndex8 with rowBytes := 2, pixels := some [0, 1, 2, 1] }

/-- The context `exampleContext` with a scratch pool that cannot supply a
texture. -/
def exampleContextNoScratch : GrContext :=
  { exampleContext with lockAndRefScratchTexture := fun _ _ _ => none }

/-- The context `exampleContext` without support for index-8 textures. -/
def exampleContextNoIndex8 : GrContext :=
  { exampleContext with supportsIndex8PixelConfig := fun _ _ _ _ => false }

/-- The context `exampleContext` with texture 3 cached for every key. -/
def exampleContextHit : GrContext :=
  { exampleContext with findAndRefTexture := fun _ _ _ _ => some ⟨3⟩ }

/-- The context `exampleContext` on which texture creation fails. -/
def exampleContextNoCreate : GrContext :=
  { exampleContext with createTexture := fun _ _ _ _ _ _ => (none, ⟨0⟩) }

/-- An invalidation state that caches texture 1 under key 5 and texture 2 under
key 6, with an empty bus. -/
def exampleState : InvalidationState :=
  { bus := { inbox := [] }
    cache := { entries := [{ key := ⟨5⟩, resource := ⟨1⟩ }, { key := ⟨6⟩, resource := ⟨2⟩ }] } }

/-- A pixel ref at generation 1 with the listener for key 5 attached. -/
def examplePixelRef : SkPixelRef :=
  add_genID_listener ⟨5⟩ { generationID := 1, listeners := [] }

/-- A core whose `SkClampMax` pins to `0 .. max`, whose `SkFixedRoundToInt` is
`(x + SK_FixedHalf) >> 16`, and whose colours are packed in BGRA order. -/
def exampleCore : SkCore :=
  { SkClampMax := fun value max => if value < 0 then 0 else if max < value then max else value
    SkFixedRoundToInt := fun x => (x + 32768) / 65536
    order := .kBGRA }

/-! ## Cache key derivation: lemmas -/

theorem bytesLE_length (n v : Nat) : (bytesLE n v).length = n := by
  induction n generalizing v with
  | zero => rfl
  | succ n ih => simp [bytesLE, ih]

theorem bytesLE4_inj (a b : Nat) (ha : a < 4294967296) (hb : b < 4294967296)
    (h : bytesLE 4 a = bytesLE 4 b) : a = b := by
  simp [bytesLE] at h
  omega

theorem bytesOfInt4_inj (x y : Int) (hx : -2147483648 ≤ x ∧ x < 2147483648)
    (hy : -2147483648 ≤ y ∧ y < 2147483648)
    (h : bytesOfInt 4 x = bytesOfInt 4 y) : x = y := by
  simp [bytesOfInt, bytesLE] at h
  omega

theorem bytesOfInt2_inj (x y : Int) (hx : -32768 ≤ x ∧ x ≤ 32767)
    (hy : -32768 ≤ y ∧ y ≤ 32767)
    (h : bytesOfInt 2 x = bytesOfInt 2 y) : x = y := by
  simp [bytesOfInt, bytesLE] at h
  omega

/-- For dimensions that fit 16 bits the derivation succeeds with the key laid
out as in the source. -/
theorem generate_bitmap_cache_id_ok (pf : Platform) (b : SkBitmap) (h : b.fitsS16) :
    generate_bitmap_cache_id pf b = .ok
      { domain := pf.gBitmapTextureDomain
        key := bytesLE 4 b.generationID ++ bytesOfInt 4 b.pixelRefOriginX ++
          bytesOfInt 4 b.pixelRefOriginY ++ bytesOfInt 2 b.width ++ bytesOfInt 2 b.height ++
          List.replicate (pf.sizeofKey - kKeyDataSize) 0 } := by
  have hw : (-32768 : Int) ≤ b.width := by omega
  have hh : (-32768 : Int) ≤ b.height := by omega
  simp [generate_bitmap_cache_id, SkToS16, hw, hh, h.1, h.2, bind, Except.bind, pure,
    Except.pure]

theorem generate_bitmap_cache_id_inj (pf : Platform) (a b : SkBitmap)
    (ta : a.typed) (tb : b.typed) (fa : a.fitsS16) (fb : b.fitsS16)
    (h : generate_bitmap_cache_id pf a = generate_bitmap_cache_id pf b) :
    a.identity = b.identity := by
  rw [generate_bitmap_cache_id_ok pf a fa, generate_bitmap_cache_id_ok pf b fb] at h
  injection h with h
  injection h with _ hk
  have e1 := List.append_inj_left hk (by simp [bytesLE_length, bytesOfInt])
  have e2 := List.append_inj_left e1 (by simp [bytesLE_length, bytesOfInt])
  have e3 := List.append_inj_left e2 (by simp [bytesLE_length, bytesOfInt])
  have e4 := List.append_inj_left e3 (by simp [bytesLE_length, bytesOfInt])
  have e5 := List.append_inj_left e4 (by simp [bytesLE_length, bytesOfInt])
  have h4 := List.append_inj_right e1 (by simp [bytesLE_length, bytesOfInt])
  have h3 := List.append_inj_right e2 (by simp [bytesLE_length, bytesOfInt])
  have h2 := List.append_inj_right e3 (by simp [bytesLE_length, bytesOfInt])
  have h1 := List.append_inj_right e4 (by simp [bytesLE_length, bytesOfInt])
  obtain ⟨ta1, ta2, ta3, ta4, ta5⟩ := ta
  obtain ⟨tb1, tb2, tb3, tb4, tb5⟩ := tb
  obtain ⟨fa1, fa2⟩ := fa
  obtain ⟨fb1, fb2⟩ := fb
  have g := bytesLE4_inj _ _ ta1 tb1 e5
  have ox := bytesOfInt4_inj _ _ ⟨ta2, ta3⟩ ⟨tb2, tb3⟩ h1
  have oy := bytesOfInt4_inj _ _ ⟨ta4, ta5⟩ ⟨tb4, tb5⟩ h2
  have w := bytesOfInt2_inj _ _ (by omega) (by omega) h3
  have hh := bytesOfInt2_inj _ _ (by omega) (by omega) h4
  simp only [SkBitmap.identity]
  simp [g, ox, oy]
  omega

theorem generate_bitmap_cache_id_ne (pf : Platform) (a b : SkBitmap)
    (ta : a.typed) (tb : b.typed) (fa : a.fitsS16) (fb : b.fitsS16)
    (hne : a.identity ≠ b.identity) :
    ∃ ka kb, generate_bitmap_cache_id pf a = .ok ka ∧ generate_bitmap_cache_id pf b = .ok kb ∧
      ka.key ≠ kb.key := by
  refine ⟨_, _, generate_bitmap_cache_id_ok pf a fa, generate_bitmap_cache_id_ok pf b fb, ?_⟩
  intro hk
  apply hne
  apply generate_bitmap_cache_id_inj pf a b ta tb fa fb
  rw [generate_bitmap_cache_id_ok pf a fa, generate_bitmap_cache_id_ok pf b fb]
  simp only at hk
  rw [hk]

/-! ## Cache key derivation: claims -/

/-- C1. Key derivation is deterministic: two bitmaps with the same generation id,
the same pixel-ref origin and the same width and height get the same result from
`generate_bitmap_cache_id`; when the dimensions fit 16 bits that result is one
and the same cache id, with the domain tag of the platform and a key of
`16 + (sizeofKey - 16)` bytes, equal byte for byte. -/
theorem generate_bitmap_cache_id_deterministic (pf : Platform) (a b : SkBitmap)
    (h : a.identity = b.identity) :
    generate_bitmap_cache_id pf a = generate_bitmap_cache_id pf b ∧
    (a.fitsS16 → ∃ id, generate_bitmap_cache_id pf a = .ok id ∧
      generate_bitmap_cache_id pf b = .ok id ∧
      id.domain = pf.gBitmapTextureDomain ∧
      id.key.length = kKeyDataSize + (pf.sizeofKey - kKeyDataSize)) := by
  simp only [SkBitmap.identity, PixelSourceIdentity.mk.injEq] at h
  obtain ⟨h1, h2, h3, h4, h5⟩ := h
  have e : generate_bitmap_cache_id pf a = generate_bitmap_cache_id pf b := by
    unfold generate_bitmap_cache_id
    rw [h1, h2, h3, h4, h5]
  refine ⟨e, fun hf => ⟨_, generate_bitmap_cache_id_ok pf a hf, ?_, rfl, ?_⟩⟩
  · rw [← e]; exact generate_bitmap_cache_id_ok pf a hf
  · simp [bytesLE_length, bytesOfInt, kKeyDataSize]
    omega

/-- Witness of C1: a non-volatile index-8 bitmap and a volatile 32-bit bitmap with
another stride, other pixels and another pixel ref, but the same identity. -/
theorem generate_bitmap_cache_id_deterministic_witness :
    generate_bitmap_cache_id examplePlatform exampleIndex8 =
      generate_bitmap_cache_id examplePlatform
        { exampleIndex8 with
          config := .kARGB_8888_Config, rowBytes := 8, pixels := none, colorTable := none,
          isVolatile := true, pixelRef := 9 } :=
  (generate_bitmap_cache_id_deterministic examplePlatform exampleIndex8
    { exampleIndex8 with
      config := .kARGB_8888_Config, rowBytes := 8, pixels := none, colorTable := none,
      isVolatile := true, pixelRef := 9 } rfl).1

/-- C2. Key separation: two bitmaps whose identity fields have the ranges of their
C types and whose width and height fit a signed 16-bit integer get different key
bytes as soon as their identities differ in any field; in particular the
identities (gen 1, origin 0,0, 4x4) and (gen 1, origin 1,0, 4x4), and
(gen 1, origin 0,0, 4x4) and (gen 2, origin 0,0, 4x4), get different keys. -/
theorem generate_bitmap_cache_id_separates (pf : Platform) :
    (∀ a b : SkBitmap, a.typed → b.typed → a.fitsS16 → b.fitsS16 →
      a.identity ≠ b.identity →
      ∃ ka kb, generate_bitmap_cache_id pf a = .ok ka ∧
        generate_bitmap_cache_id pf b = .ok kb ∧ ka.key ≠ kb.key) ∧
    (∀ a b : SkBitmap, a.identity = ⟨1, 0, 0, 4, 4⟩ → b.identity = ⟨1, 1, 0, 4, 4⟩ →
      ∃ ka kb, generate_bitmap_cache_id pf a = .ok ka ∧
        generate_bitmap_cache_id pf b = .ok kb ∧ ka.key ≠ kb.key) ∧
    (∀ a b : SkBitmap, a.identity = ⟨1, 0, 0, 4, 4⟩ → b.identity = ⟨2, 0, 0, 4, 4⟩ →
      ∃ ka kb, generate_bitmap_cache_id pf a = .ok ka ∧
        generate_bitmap_cache_id pf b = .ok kb ∧ ka.key ≠ kb.key) := by
  refine ⟨fun a b ta tb fa fb hne => generate_bitmap_cache_id_ne pf a b ta tb fa fb hne, ?_, ?_⟩
  · intro a b ha hb
    have ha1 := ha
    have hb1 := hb
    simp only [SkBitmap.identity, PixelSourceIdentity.mk.injEq] at ha1 hb1
    obtain ⟨a1, a2, a3, a4, a5⟩ := ha1
    obtain ⟨b1, b2, b3, b4, b5⟩ := hb1
    apply generate_bitmap_cache_id_ne pf a b
    · simp [SkBitmap.typed, a1, a2, a3]
    · simp [SkBitmap.typed, b1, b2, b3]
    · simp [SkBitmap.fitsS16, a4, a5]
    · simp [SkBitmap.fitsS16, b4, b5]
    · rw [ha, hb]; decide
  · intro a b ha hb
    have ha1 := ha
    have hb1 := hb
    simp only [SkBitmap.identity, PixelSourceIdentity.mk.injEq] at ha1 hb1
    obtain ⟨a1, a2, a3, a4, a5⟩ := ha1
    obtain ⟨b1, b2, b3, b4, b5⟩ := hb1
    apply generate_bitmap_cache_id_ne pf a b
    · simp [SkBitmap.typed, a1, a2, a3]
    · simp [SkBitmap.typed, b1, b2, b3]
    · simp [SkBitmap.fitsS16, a4, a5]
    · simp [SkBitmap.fitsS16, b4, b5]
    · rw [ha, hb]; decide

/-- Witness of C2: the 4 by 4 bitmap at origin (0, 0) against its subset at origin
(1, 0), both of generation 1. -/
theorem generate_bitmap_cache_id_separates_witness :
    ∃ ka kb, generate_bitmap_cache_id examplePlatform exampleNotReady = .ok ka ∧
      generate_bitmap_cache_id examplePlatform
        { exampleNotReady with pixelRefOriginX := 1 } = .ok kb ∧ ka.key ≠ kb.key :=
  (generate_bitmap_cache_id_separates examplePlatform).1 exampleNotReady
    { exampleNotReady with pixelRefOriginX := 1 }
    (by decide) (by decide) (by decide) (by decide) (by decide)

/-- C3. A bitmap whose width or height lies outside the signed 16-bit range
-32768..32767 gets no key: `generate_bitmap_cache_id` fails with RangeError. -/
theorem generate_bitmap_cache_id_range_error (pf : Platform) (b : SkBitmap)
    (h : ¬ (-32768 ≤ (b.width : Int) ∧ (b.width : Int) ≤ 32767) ∨
      ¬ (-32768 ≤ (b.height : Int) ∧ (b.height : Int) ≤ 32767)) :
    generate_bitmap_cache_id pf b = .error .RangeError := by
  unfold generate_bitmap_cache_id SkToS16
  by_cases hw : -32768 ≤ (b.width : Int) ∧ (b.width : Int) ≤ 32767
  · have hh : ¬ (-32768 ≤ (b.height : Int) ∧ (b.height : Int) ≤ 32767) := by
      rcases h with h | h
      · exact absurd hw h
      · exact h
    simp only [if_pos hw, if_neg hh]
    rfl
  · simp only [if_neg hw]
    rfl

/-- Witness of C3: a bitmap 40000 pixels wide. -/
theorem generate_bitmap_cache_id_range_error_witness :
    generate_bitmap_cache_id examplePlatform { exampleDirect with width := 40000 } =
      .error .RangeError :=
  generate_bitmap_cache_id_range_error examplePlatform { exampleDirect with width := 40000 }
    (Or.inl (by decide))


/-! ## The palette / index packer: lemmas -/

theorem memcpy_length (m : Mem) (dst : Nat) (src : List Nat) (so n : Nat) :
    (memcpy m dst src so n).buf.length = m.buf.length := by
  induction n with
  | zero => rfl
  | succ n ih => simp [memcpy, Mem.store, ih]

theorem memcpy_getElem? (m : Mem) (dst : Nat) (src : List Nat) (so n j : Nat)
    (hj : j < m.buf.length) :
    (memcpy m dst src so n).buf[j]? =
      if dst ≤ j ∧ j < dst + n then some (src.getD (so + (j - dst)) 0) else m.buf[j]? := by
  induction n with
  | zero =>
    show m.buf[j]? = _
    rw [if_neg (by omega)]
  | succ n ih =>
    simp only [memcpy, Mem.store, List.getElem?_set, memcpy_length]
    by_cases h1 : dst + n = j
    · subst h1
      rw [if_pos rfl, if_pos hj, if_pos (by omega)]
      congr 2
      omega
    · rw [if_neg h1, ih]
      by_cases h2 : dst ≤ j ∧ j < dst + n
      · rw [if_pos h2, if_pos (by omega)]
      · rw [if_neg h2, if_neg (by omega)]

theorem memcpy_writes (m : Mem) (dst : Nat) (src : List Nat) (so n o : Nat)
    (h : o ∈ (memcpy m dst src so n).writes) :
    o ∈ m.writes ∨ (dst ≤ o ∧ o < dst + n) := by
  induction n with
  | zero => exact Or.inl h
  | succ n ih =>
    simp only [memcpy, Mem.store, List.mem_cons] at h
    rcases h with h | h
    · right; omega
    · rcases ih h with h | h
      · exact Or.inl h
      · right; omega

theorem memcpy_srcReads (m : Mem) (dst : Nat) (src : List Nat) (so n o : Nat)
    (h : o ∈ (memcpy m dst src so n).srcReads) :
    o ∈ m.srcReads ∨ (so ≤ o ∧ o < so + n) := by
  induction n with
  | zero => exact Or.inl h
  | succ n ih =>
    simp only [memcpy, Mem.store, List.mem_cons] at h
    rcases h with h | h
    · right; omega
    · rcases ih h with h | h
      · exact Or.inl h
      · right; omega

theorem memcpy_ctReads (m : Mem) (dst : Nat) (src : List Nat) (so n : Nat) :
    (memcpy m dst src so n).ctReads = m.ctReads := by
  induction n with
  | zero => rfl
  | succ n ih => simp [memcpy, Mem.store, ih]

theorem storeBytes_length (m : Mem) (off : Nat) (bs : List Nat) :
    (m.storeBytes off bs).buf.length = m.buf.length := by
  induction bs generalizing m off with
  | nil => rfl
  | cons v bs ih => simp [Mem.storeBytes, ih, Mem.store]

theorem storeBytes_getElem? (m : Mem) (off : Nat) (bs : List Nat) (j : Nat)
    (hj : j < m.buf.length) :
    (m.storeBytes off bs).buf[j]? =
      if off ≤ j ∧ j < off + bs.length then some (bs.getD (j - off) 0) else m.buf[j]? := by
  induction bs generalizing m off with
  | nil =>
    show m.buf[j]? = _
    rw [if_neg (by simp)]
  | cons v bs ih =>
    simp only [Mem.storeBytes]
    rw [ih _ _ (by simpa [Mem.store] using hj)]
    simp only [Mem.store, List.getElem?_set, List.length_cons]
    by_cases h1 : off + 1 ≤ j ∧ j < off + 1 + bs.length
    · rw [if_pos h1, if_pos (by omega)]
      obtain ⟨k, hk⟩ : ∃ k, j - off = k + 1 := ⟨j - off - 1, by omega⟩
      rw [hk, List.getD_cons_succ]
      congr 2
      omega
    · rw [if_neg h1]
      by_cases h2 : off = j
      · subst h2
        rw [if_pos rfl, if_pos hj, if_pos (by omega)]
        simp
      · rw [if_neg h2, if_neg (by omega)]

theorem storeBytes_writes (m : Mem) (off : Nat) (bs : List Nat) (o : Nat)
    (h : o ∈ (m.storeBytes off bs).writes) :
    o ∈ m.writes ∨ (off ≤ o ∧ o < off + bs.length) := by
  induction bs generalizing m off with
  | nil => exact Or.inl h
  | cons v bs ih =>
    simp only [Mem.storeBytes] at h
    rcases ih _ _ h with h | h
    · simp only [Mem.store, List.mem_cons] at h
      rcases h with h | h
      · right; simp; omega
      · exact Or.inl h
    · right; simp; omega

theorem storeBytes_srcReads (m : Mem) (off : Nat) (bs : List Nat) :
    (m.storeBytes off bs).srcReads = m.srcReads := by
  induction bs generalizing m off with
  | nil => rfl
  | cons v bs ih => simp [Mem.storeBytes, ih, Mem.store]

theorem storeBytes_ctReads (m : Mem) (off : Nat) (bs : List Nat) :
    (m.storeBytes off bs).ctReads = m.ctReads := by
  induction bs generalizing m off with
  | nil => rfl
  | cons v bs ih => simp [Mem.storeBytes, ih, Mem.store]

theorem convertPixelsTo_length (pf : Platform) (m : Mem) (colors : List Nat) (n : Nat) :
    (convertPixelsTo pf m colors n).buf.length = m.buf.length := by
  induction n with
  | zero => rfl
  | succ n ih => simp [convertPixelsTo, storeBytes_length, ih]

theorem convertPixelsTo_getElem? (pf : Platform) (m : Mem) (colors : List Nat) (n j : Nat)
    (hj : j < m.buf.length) :
    (convertPixelsTo pf m colors n).buf[j]? =
      if j < 4 * n then
        some ((bytesLE 4 (pf.convertColor (colors.getD (j / 4) 0))).getD (j % 4) 0)
      else m.buf[j]? := by
  induction n with
  | zero =>
    show m.buf[j]? = _
    rw [if_neg (by omega)]
  | succ n ih =>
    simp only [convertPixelsTo]
    rw [storeBytes_getElem? _ _ _ _ (by rw [convertPixelsTo_length]; exact hj), bytesLE_length, ih]
    by_cases h1 : 4 * n ≤ j ∧ j < 4 * n + 4
    · rw [if_pos h1, if_pos (by omega)]
      have e1 : j / 4 = n := by omega
      have e2 : j % 4 = j - 4 * n := by omega
      rw [e1, e2]
    · rw [if_neg h1]
      by_cases h2 : j < 4 * n
      · rw [if_pos h2, if_pos (by omega)]
      · rw [if_neg h2, if_neg (by omega)]

theorem convertPixelsTo_writes (pf : Platform) (m : Mem) (colors : List Nat) (n o : Nat)
    (h : o ∈ (convertPixelsTo pf m colors n).writes) :
    o ∈ m.writes ∨ o < 4 * n := by
  induction n with
  | zero => exact Or.inl h
  | succ n ih =>
    simp only [convertPixelsTo] at h
    rcases storeBytes_writes _ _ _ _ h with h | h
    · rcases ih h with h | h
      · exact Or.inl h
      · right; omega
    · rw [bytesLE_length] at h
      right; omega

theorem convertPixelsTo_srcReads (pf : Platform) (m : Mem) (colors : List Nat) (n : Nat) :
    (convertPixelsTo pf m colors n).srcReads = m.srcReads := by
  induction n with
  | zero => rfl
  | succ n ih => simp [convertPixelsTo, storeBytes_srcReads, ih]

theorem convertPixelsTo_ctReads (pf : Platform) (m : Mem) (colors : List Nat) (n i : Nat)
    (h : i ∈ (convertPixelsTo pf m colors n).ctReads) :
    i ∈ m.ctReads ∨ i < n := by
  induction n with
  | zero => exact Or.inl h
  | succ n ih =>
    simp only [convertPixelsTo, List.mem_cons] at h
    rcases h with h | h
    · right; omega
    · rcases ih h with h | h
      · exact Or.inl h
      · right; omega

theorem copyRows_length (pixels : List Nat) (w rb n : Nat) (m : Mem) (src dst : Nat) :
    (copyRows pixels w rb n m src dst).buf.length = m.buf.length := by
  induction n generalizing m src dst with
  | zero => rfl
  | succ n ih => simp [copyRows, ih, memcpy_length]

theorem copyRows_getElem? (pixels : List Nat) (w rb n : Nat) (m : Mem) (src dst j : Nat)
    (hj : j < m.buf.length) :
    (copyRows pixels w rb n m src dst).buf[j]? =
      if dst ≤ j ∧ j < dst + n * w then
        some (pixels.getD (src + (j - dst) / w * rb + (j - dst) % w) 0)
      else m.buf[j]? := by
  induction n generalizing m src dst with
  | zero =>
    show m.buf[j]? = _
    rw [if_neg (by omega)]
  | succ n ih =>
    simp only [copyRows]
    rw [ih _ _ _ (by rw [memcpy_length]; exact hj), memcpy_getElem? _ _ _ _ _ _ hj]
    have hmul : (n + 1) * w = n * w + w := Nat.succ_mul n w
    by_cases h1 : dst + w ≤ j ∧ j < dst + w + n * w
    · rw [if_pos h1, if_pos (by omega)]
      have hw : 0 < w := by
        rcases Nat.eq_zero_or_pos w with h0 | h0
        · rw [h0, Nat.mul_zero] at h1
          omega
        · exact h0
      have e : j - dst = (j - (dst + w)) + w := by omega
      rw [e, Nat.add_div_right _ hw, Nat.add_mod_right, Nat.add_mul, Nat.one_mul]
      congr 2
      omega
    · rw [if_neg h1]
      by_cases h2 : dst ≤ j ∧ j < dst + w
      · rw [if_pos h2, if_pos (by omega)]
        have hlt : j - dst < w := by omega
        rw [Nat.div_eq_of_lt hlt, Nat.mod_eq_of_lt hlt, Nat.zero_mul, Nat.add_zero]
      · rw [if_neg h2, if_neg (by omega)]

theorem copyRows_writes (pixels : List Nat) (w rb n : Nat) (m : Mem) (src dst o : Nat)
    (h : o ∈ (copyRows pixels w rb n m src dst).writes) :
    o ∈ m.writes ∨ (dst ≤ o ∧ o < dst + n * w) := by
  induction n generalizing m src dst with
  | zero => exact Or.inl h
  | succ n ih =>
    simp only [copyRows] at h
    have hmul : (n + 1) * w = n * w + w := Nat.succ_mul n w
    rcases ih _ _ _ h with h | h
    · rcases memcpy_writes _ _ _ _ _ _ h with h | h
      · exact Or.inl h
      · right
        have : 0 ≤ n * w := Nat.zero_le _
        omega
    · right; omega

theorem copyRows_srcReads (pixels : List Nat) (w rb n : Nat) (m : Mem) (src dst o : Nat)
    (hrb : w ≤ rb) (h : o ∈ (copyRows pixels w rb n m src dst).srcReads) :
    o ∈ m.srcReads ∨ (src ≤ o ∧ o < src + n * rb) := by
  induction n generalizing m src dst with
  | zero => exact Or.inl h
  | succ n ih =>
    simp only [copyRows] at h
    have hmul : (n + 1) * rb = n * rb + rb := Nat.succ_mul n rb
    rcases ih _ _ _ h with h | h
    · rcases memcpy_srcReads _ _ _ _ _ _ h with h | h
      · exact Or.inl h
      · right
        have : 0 ≤ n * rb := Nat.zero_le _
        omega
    · right; omega

theorem copyRows_ctReads (pixels : List Nat) (w rb n : Nat) (m : Mem) (src dst : Nat) :
    (copyRows pixels w rb n m src dst).ctReads = m.ctReads := by
  induction n generalizing m src dst with
  | zero => rfl
  | succ n ih => simp [copyRows, ih, memcpy_ctReads]

theorem readyToDraw_index8 (b : SkBitmap) (hcfg : b.config = Config.kIndex8_Config)
    (hready : b.readyToDraw = true) :
    ∃ ct px, b.colorTable = some ct ∧ b.pixels = some px := by
  unfold SkBitmap.readyToDraw at hready
  rw [hcfg] at hready
  cases hc : b.colorTable with
  | none => simp [hc] at hready
  | some ct =>
    cases hp : b.pixels with
    | none => simp [hp] at hready
    | some px => exact ⟨ct, px, rfl, rfl⟩

theorem build_compressed_data_eq (pf : Platform) (buffer : List Nat) (b : SkBitmap)
    (ct px : List Nat) (hct : b.colorTable = some ct) (hpx : b.pixels = some px) :
    build_compressed_data pf buffer b =
      if b.width = b.rowBytes then
        memcpy (convertPixelsTo pf ⟨buffer, [], [], []⟩ ct ct.length) kGrColorTableSize px 0
          b.getSize
      else
        copyRows px b.width b.rowBytes b.height
          (convertPixelsTo pf ⟨buffer, [], [], []⟩ ct ct.length) 0 kGrColorTableSize := by
  have hr : b.readyToDraw = true := by simp [SkBitmap.readyToDraw, hct, hpx]
  simp [build_compressed_data, hr, hct, hpx]

theorem build_compressed_data_length (pf : Platform) (buffer : List Nat) (b : SkBitmap) :
    (build_compressed_data pf buffer b).buf.length = buffer.length := by
  unfold build_compressed_data
  simp only []
  split
  · rfl
  · split
    · split
      · rw [memcpy_length, convertPixelsTo_length]
      · rw [copyRows_length, convertPixelsTo_length]
    · rfl

theorem build_compressed_data_getElem? (pf : Platform) (buffer : List Nat) (b : SkBitmap)
    (ct px : List Nat) (hct : b.colorTable = some ct) (hpx : b.pixels = some px)
    (j : Nat) (hj : j < buffer.length) :
    (build_compressed_data pf buffer b).buf[j]? =
      if 1024 ≤ j ∧ j < 1024 + b.height * b.width then
        some (px.getD ((j - 1024) / b.width * b.rowBytes + (j - 1024) % b.width) 0)
      else if j < 4 * ct.length then
        some ((bytesLE 4 (pf.convertColor (ct.getD (j / 4) 0))).getD (j % 4) 0)
      else buffer[j]? := by
  rw [build_compressed_data_eq pf buffer b ct px hct hpx]
  have hk : kGrColorTableSize = 1024 := rfl
  by_cases hw : b.width = b.rowBytes
  · rw [if_pos hw, memcpy_getElem? _ _ _ _ _ _ (by rw [convertPixelsTo_length]; exact hj),
      convertPixelsTo_getElem? _ _ _ _ _ hj, hk, SkBitmap.getSize, ← hw]
    by_cases h1 : 1024 ≤ j ∧ j < 1024 + b.height * b.width
    · rw [if_pos h1, if_pos h1, Nat.zero_add, Nat.div_add_mod']
    · rw [if_neg h1, if_neg h1]
  · rw [if_neg hw, copyRows_getElem? _ _ _ _ _ _ _ _ (by rw [convertPixelsTo_length]; exact hj),
      convertPixelsTo_getElem? _ _ _ _ _ hj, hk, Nat.zero_add]

theorem build_compressed_data_pixel (pf : Platform) (buffer : List Nat) (b : SkBitmap)
    (ct px : List Nat) (hct : b.colorTable = some ct) (hpx : b.pixels = some px)
    (x y : Nat) (hx : x < b.width) (hy : y < b.height)
    (hbuf : buffer.length = b.width * b.height + kGrColorTableSize) :
    (build_compressed_data pf buffer b).buf[1024 + y * b.width + x]? =
      some (px.getD (y * b.rowBytes + x) 0) := by
  have hk : kGrColorTableSize = 1024 := rfl
  have hlt : y * b.width + x < b.height * b.width := by
    calc y * b.width + x < y * b.width + b.width := by omega
      _ = (y + 1) * b.width := (Nat.succ_mul y b.width).symm
      _ ≤ b.height * b.width := Nat.mul_le_mul_right _ hy
  have hcomm : b.width * b.height = b.height * b.width := Nat.mul_comm _ _
  rw [build_compressed_data_getElem? pf buffer b ct px hct hpx _ (by omega),
    if_pos (by omega)]
  have e : 1024 + y * b.width + x - 1024 = x + y * b.width := by omega
  have hw : 0 < b.width := by omega
  rw [e, Nat.add_mul_div_right _ _ hw, Nat.add_mul_mod_self_right, Nat.div_eq_of_lt hx,
    Nat.mod_eq_of_lt hx, Nat.zero_add]

theorem row_offset_lt (x y w h rb : Nat) (hx : x < w) (hy : y < h) (hrb : w ≤ rb) :
    y * rb + x < h * rb := by
  calc y * rb + x < y * rb + rb := by omega
    _ = (y + 1) * rb := (Nat.succ_mul y rb).symm
    _ ≤ h * rb := Nat.mul_le_mul_right _ hy

/-! ## The palette / index packer: claims -/

/-- C4. Index row trimming: for a lockable index-8 bitmap of width `w`, height `h`
and row stride `rowBytes >= w`, whose pixel memory has `getSize()` bytes, and a
destination of `w * h + kGrColorTableSize` bytes, the output byte at offset
`1024 + y * w + x` is the source index byte at offset `y * rowBytes + x`, for all
`x < w` and `y < h`. -/
theorem build_compressed_data_trims_rows (pf : Platform) (buffer : List Nat) (b : SkBitmap)
    (px : List Nat) (x y : Nat)
    (hcfg : b.config = Config.kIndex8_Config) (hready : b.readyToDraw = true)
    (hpx : b.pixels = some px) (hsize : px.length = b.getSize)
    (hbuf : buffer.length = b.width * b.height + kGrColorTableSize)
    (hrb : b.width ≤ b.rowBytes) (hx : x < b.width) (hy : y < b.height) :
    ∃ v, px[y * b.rowBytes + x]? = some v ∧
      (build_compressed_data pf buffer b).buf[1024 + y * b.width + x]? = some v := by
  obtain ⟨ct, px1, hct, hpx1⟩ := readyToDraw_index8 b hcfg hready
  have hlt : y * b.rowBytes + x < px.length := by
    rw [hsize]; exact row_offset_lt x y _ _ _ hx hy hrb
  refine ⟨px[y * b.rowBytes + x], List.getElem?_eq_getElem hlt, ?_⟩
  rw [build_compressed_data_pixel pf buffer b ct px hct hpx x y hx hy hbuf]
  simp [List.getD_eq_getElem?_getD, List.getElem?_eq_getElem hlt]

set_option maxRecDepth 100000 in
/-- Witness of C4: pixel (1, 1) of the 2 by 2 example with stride 4. -/
theorem build_compressed_data_trims_rows_witness :
    ∃ v, [0, 1, 9, 9, 2, 1, 9, 9][1 * exampleIndex8.rowBytes + 1]? = some v ∧
      (build_compressed_data examplePlatform (List.replicate 1028 0) exampleIndex8).buf[
        1024 + 1 * exampleIndex8.width + 1]? = some v :=
  build_compressed_data_trims_rows examplePlatform (List.replicate 1028 0) exampleIndex8
    [0, 1, 9, 9, 2, 1, 9, 9] 1 1 rfl rfl rfl rfl (by decide) (by decide) (by decide) (by decide)

set_option maxRecDepth 100000 in
/-- Counterexample to C6: the same 2 by 2 source with 3 palette colours is packed
into a block that held zero bytes and into a block that held bytes 255.  Byte 12,
the first byte of palette slot 3, is 0 in one result and 255 in the other, so the
two upload buffers differ. -/
theorem build_compressed_data_padding_not_fixed :
    (build_compressed_data examplePlatform (List.replicate 1028 0) exampleIndex8).buf[12]?
      = some 0 ∧
    (build_compressed_data examplePlatform (List.replicate 1028 255) exampleIndex8).buf[12]?
      = some 255 ∧
    (build_compressed_data examplePlatform (List.replicate 1028 0) exampleIndex8).buf ≠
      (build_compressed_data examplePlatform (List.replicate 1028 255) exampleIndex8).buf := by
  decide

/-- C6, amended. For a lockable index-8 source whose colour table has `n` entries,
bytes `4 * n .. 1023` of the upload buffer are never stored to: they keep what the
block held before.  Every other byte is fixed by the source, so two preparations
of the same source give the same buffer exactly when the two blocks agreed on
bytes `4 * n .. 1023` beforehand. -/
theorem build_compressed_data_padding_kept (pf : Platform) (b : SkBitmap)
    (ct buf1 buf2 : List Nat)
    (hcfg : b.config = Config.kIndex8_Config) (hready : b.readyToDraw = true)
    (hct : b.colorTable = some ct)
    (h1 : buf1.length = b.width * b.height + kGrColorTableSize)
    (h2 : buf2.length = b.width * b.height + kGrColorTableSize) :
    (∀ j, 4 * ct.length ≤ j → j < 1024 →
      (build_compressed_data pf buf1 b).buf[j]? = buf1[j]?) ∧
    ((build_compressed_data pf buf1 b).buf = (build_compressed_data pf buf2 b).buf ↔
      ∀ j, 4 * ct.length ≤ j → j < 1024 → buf1[j]? = buf2[j]?) := by
  obtain ⟨ct1, px, hct1, hpx⟩ := readyToDraw_index8 b hcfg hready
  have hcteq : ct1 = ct := by rw [hct] at hct1; exact (Option.some.inj hct1).symm
  subst hcteq
  have hk : kGrColorTableSize = 1024 := rfl
  have hcomm : b.width * b.height = b.height * b.width := Nat.mul_comm _ _
  have keep : ∀ (buf : List Nat), buf.length = b.width * b.height + kGrColorTableSize →
      ∀ j, 4 * ct1.length ≤ j → j < 1024 →
        (build_compressed_data pf buf b).buf[j]? = buf[j]? := by
    intro buf hb j hj1 hj2
    rw [build_compressed_data_getElem? pf buf b ct1 px hct hpx j (by omega),
      if_neg (by omega), if_neg (by omega)]
  refine ⟨keep buf1 h1, ?_, ?_⟩
  · intro h j hj1 hj2
    rw [← keep buf1 h1 j hj1 hj2, ← keep buf2 h2 j hj1 hj2, h]
  · intro h
    apply List.ext_getElem?
    intro j
    by_cases hj : j < b.width * b.height + kGrColorTableSize
    · rw [build_compressed_data_getElem? pf buf1 b ct1 px hct hpx j (by omega),
        build_compressed_data_getElem? pf buf2 b ct1 px hct hpx j (by omega)]
      by_cases c1 : 1024 ≤ j ∧ j < 1024 + b.height * b.width
      · rw [if_pos c1, if_pos c1]
      · rw [if_neg c1, if_neg c1]
        by_cases c2 : j < 4 * ct1.length
        · rw [if_pos c2, if_pos c2]
        · rw [if_neg c2, if_neg c2]
          exact h j (by omega) (by omega)
    · rw [List.getElem?_eq_none (by rw [build_compressed_data_length]; omega),
        List.getElem?_eq_none (by rw [build_compressed_data_length]; omega)]

set_option maxRecDepth 100000 in
/-- Witness of C6, amended: byte 12 of the result is byte 12 of the block. -/
theorem build_compressed_data_padding_kept_witness :
    (build_compressed_data examplePlatform (List.replicate 1028 255) exampleIndex8).buf[12]? =
      (List.replicate 1028 255)[12]? :=
  (build_compressed_data_padding_kept examplePlatform exampleIndex8
    [4278190335, 4278255360, 4294901760] (List.replicate 1028 255) (List.replicate 1028 0)
    rfl rfl rfl (by decide) (by decide)).1 12 (by decide) (by decide)

/-- C9. In-bounds access of the packer: for a lockable index-8 bitmap with row
stride `rowBytes >= width` and at most 256 palette entries, `build_compressed_data`
loads source index bytes only at offsets below `height * rowBytes`, loads palette
entries only at indices below the count, and stores only at offsets below
`1024 + width * height`, the size of the block its caller allocates. -/
theorem build_compressed_data_in_bounds (pf : Platform) (buffer : List Nat) (b : SkBitmap)
    (ct : List Nat)
    (hcfg : b.config = Config.kIndex8_Config) (hready : b.readyToDraw = true)
    (hct : b.colorTable = some ct) (hrb : b.width ≤ b.rowBytes) (hn : ct.length ≤ 256) :
    (∀ o ∈ (build_compressed_data pf buffer b).srcReads, o < b.height * b.rowBytes) ∧
    (∀ i ∈ (build_compressed_data pf buffer b).ctReads, i < ct.length) ∧
    (∀ o ∈ (build_compressed_data pf buffer b).writes, o < 1024 + b.width * b.height) := by
  obtain ⟨ct1, px, hct1, hpx⟩ := readyToDraw_index8 b hcfg hready
  have hcteq : ct1 = ct := by rw [hct] at hct1; exact (Option.some.inj hct1).symm
  subst hcteq
  have hk : kGrColorTableSize = 1024 := rfl
  have hcomm : b.width * b.height = b.height * b.width := Nat.mul_comm _ _
  rw [build_compressed_data_eq pf buffer b ct1 px hct hpx]
  by_cases hw : b.width = b.rowBytes
  · rw [if_pos hw]
    refine ⟨?_, ?_, ?_⟩
    · intro o ho
      rcases memcpy_srcReads _ _ _ _ _ _ ho with h | h
      · rw [convertPixelsTo_srcReads] at h; simp at h
      · rw [SkBitmap.getSize] at h; omega
    · intro i hi
      rw [memcpy_ctReads] at hi
      rcases convertPixelsTo_ctReads _ _ _ _ _ hi with h | h
      · simp at h
      · exact h
    · intro o ho
      rcases memcpy_writes _ _ _ _ _ _ ho with h | h
      · rcases convertPixelsTo_writes _ _ _ _ _ h with h | h
        · simp at h
        · omega
      · rw [SkBitmap.getSize, ← hw, hk] at h; omega
  · rw [if_neg hw]
    refine ⟨?_, ?_, ?_⟩
    · intro o ho
      rcases copyRows_srcReads _ _ _ _ _ _ _ _ hrb ho with h | h
      · rw [convertPixelsTo_srcReads] at h; simp at h
      · omega
    · intro i hi
      rw [copyRows_ctReads] at hi
      rcases convertPixelsTo_ctReads _ _ _ _ _ hi with h | h
      · simp at h
      · exact h
    · intro o ho
      rcases copyRows_writes _ _ _ _ _ _ _ _ ho with h | h
      · rcases convertPixelsTo_writes _ _ _ _ _ h with h | h
        · simp at h
        · omega
      · rw [hk] at h; omega

set_option maxRecDepth 100000 in
/-- Witness of C9: the last store of the packer on the 2 by 2 example, at offset
1027, lies below `1024 + 2 * 2`. -/
theorem build_compressed_data_in_bounds_witness :
    1027 < 1024 + exampleIndex8.width * exampleIndex8.height :=
  (build_compressed_data_in_bounds examplePlatform (List.replicate 1028 0) exampleIndex8
    [4278190335, 4278255360, 4294901760] rfl rfl rfl (by decide) (by decide)).2.2 1027
    (by decide)

/-! ## The texture request: lemmas and claims -/


theorem upload_pixels_uploads (pf : Platform) (ctx : GrContext) (hist calls : List GrCall)
    (cache : Bool) (params : Option GrTextureParams) (orig b : SkBitmap) (desc : GrTextureDesc)
    (px : List Nat) (hpx : b.pixels = some px) (hc : calls.filterMap GrCall.upload = []) :
    (∀ u ∈ (upload_pixels pf ctx hist calls cache params orig b desc).uploads,
      u = (px, b.rowBytes)) ∧
    (∀ t, (upload_pixels pf ctx hist calls cache params orig b desc).result = .ok (some t) →
      (upload_pixels pf ctx hist calls cache params orig b desc).uploads = [(px, b.rowBytes)]) := by
  unfold upload_pixels Run.uploads
  simp only [hpx, Option.getD_some]
  split
  · simp [hc]
  · split
    · split
      · simp [hc]
      · split <;> simp [hc, GrCall.upload, List.filterMap_append]
    · split <;> simp [hc, GrCall.upload, List.filterMap_append]

set_option maxRecDepth 100000 in
/-- Counterexample to C7: for the 10 by 5 source of 4 bytes per pixel with a row
stride of 48 bytes, the only upload of the request is the 240-byte pixel memory
of the source with row stride 48; no block of 200 bytes is prepared. -/
theorem direct_upload_not_trimmed :
    (sk_gr_create_bitmap_texture examplePlatform exampleContext [] true none
      exampleDirect).uploads = [(List.range 240, 48)] ∧
    (List.range 240).length = 240 ∧
    ¬ ∃ u ∈ (sk_gr_create_bitmap_texture examplePlatform exampleContext [] true none
      exampleDirect).uploads, u.1.length = 10 * 4 * 5 := by
  decide

/-- C7, amended. For a direct (non-palette) source that can be locked,
`sk_gr_create_bitmap_texture` makes no trimmed copy: every upload it performs
hands over the pixel memory of the source itself, all `height * rowBytes` bytes
of it, together with the row stride of the source, and a request that returns a
texture has performed exactly this one upload.  Pixel (x, y) of the upload is
therefore found where the source has it, at row `y` of stride `rowBytes`. -/
theorem direct_upload_passes_source (pf : Platform) (ctx : GrContext) (hist : List GrCall)
    (cache : Bool) (params : Option GrTextureParams) (b : SkBitmap) (px : List Nat)
    (hcfg : b.config ≠ Config.kIndex8_Config) (hpx : b.pixels = some px)
    (hsize : px.length = b.getSize) :
    (∀ u ∈ (sk_gr_create_bitmap_texture pf ctx hist cache params b).uploads,
      u = (px, b.rowBytes) ∧ u.1.length = b.height * b.rowBytes) ∧
    (∀ t, (sk_gr_create_bitmap_texture pf ctx hist cache params b).result = .ok (some t) →
      (sk_gr_create_bitmap_texture pf ctx hist cache params b).uploads = [(px, b.rowBytes)]) := by
  have h := upload_pixels_uploads pf ctx hist [] cache params b b
    (generate_bitmap_texture_desc pf b) px hpx rfl
  have e : sk_gr_create_bitmap_texture pf ctx hist cache params b =
      upload_pixels pf ctx hist [] cache params b b (generate_bitmap_texture_desc pf b) := by
    unfold sk_gr_create_bitmap_texture
    simp [hcfg]
  rw [e]
  refine ⟨fun u hu => ?_, h.2⟩
  have := h.1 u hu
  subst this
  exact ⟨rfl, hsize⟩


set_option maxRecDepth 100000 in
/-- Witness of C7, amended: the 10 by 5 example with stride 48 returns texture 1
after the single upload of its 240-byte pixel memory with row stride 48. -/
theorem direct_upload_passes_source_witness :
    (sk_gr_create_bitmap_texture examplePlatform exampleContext [] true none
      exampleDirect).uploads = [(List.range 240, exampleDirect.rowBytes)] :=
  (direct_upload_passes_source examplePlatform exampleContext [] true none exampleDirect
    (List.range 240) (by decide) rfl (by decide)).2 ⟨1⟩ (by decide)

set_option maxRecDepth 100000 in
/-- C8, evaluation at the failing input: a non-volatile 4 by 4 index-8 bitmap
whose pixels cannot be locked, on a context that supports index-8 textures.  The
request looks the bitmap up, asks for index-8 support, creates a texture from
the 1040-byte block that the packer left untouched, attaches a listener and
returns the texture. -/
theorem index8_not_ready_still_creates :
    exampleNotReady.readyToDraw = false ∧
    (GrLockAndRefCachedBitmapTexture examplePlatform exampleContext [] exampleNotReady
      none).result = .ok (some ⟨1⟩) ∧
    (GrLockAndRefCachedBitmapTexture examplePlatform exampleContext [] exampleNotReady
      none).uploads = [(SkAutoMalloc examplePlatform 1040, 4)] ∧
    (GrLockAndRefCachedBitmapTexture examplePlatform exampleContext [] exampleNotReady
      none).calls.map GrCall.isCreateTexture = [false, false, true, false] ∧
    (GrLockAndRefCachedBitmapTexture examplePlatform exampleContext []
      { exampleNotReady with isVolatile := true } none).calls.map GrCall.isWritePixels =
        [false, false, true] := by
  decide

theorem upload_pixels_scratch (pf : Platform) (ctx : GrContext) (hist calls : List GrCall)
    (params : Option GrTextureParams) (orig b : SkBitmap) (desc : GrTextureDesc)
    (hc : ∀ c ∈ calls, c.touchesCache = false)
    (hs : calls.countP GrCall.isLockAndRefScratchTexture = 0) :
    (∀ c ∈ (upload_pixels pf ctx hist calls false params orig b desc).calls,
      c.touchesCache = false) ∧
    (b.readyToDraw = true →
      (upload_pixels pf ctx hist calls false params orig b desc).calls.countP
        GrCall.isLockAndRefScratchTexture = 1) := by
  unfold upload_pixels
  by_cases hr : b.readyToDraw = true
  · simp only [hr, Bool.not_true, Bool.false_eq_true, if_false]
    split
    · refine ⟨?_, fun _ => ?_⟩
      · intro c hcm
        simp only [List.mem_append, List.mem_singleton] at hcm
        rcases hcm with h | h
        · exact hc c h
        · subst h; rfl
      · simp [List.countP_append, hs, GrCall.isLockAndRefScratchTexture]
    · refine ⟨?_, fun _ => ?_⟩
      · intro c hcm
        simp only [List.mem_append, List.mem_singleton] at hcm
        rcases hcm with (h | h) | h
        · exact hc c h
        · subst h; rfl
        · subst h; rfl
      · simp [List.countP_append, hs, GrCall.isLockAndRefScratchTexture]
  · simp only [hr, Bool.not_false, if_true]
    exact ⟨hc, fun h => absurd h (by simp)⟩

theorem create_scratch (pf : Platform) (ctx : GrContext) (hist : List GrCall)
    (params : Option GrTextureParams) (b : SkBitmap) :
    (∀ c ∈ (sk_gr_create_bitmap_texture pf ctx hist false params b).calls,
      c.touchesCache = false) ∧
    (b.readyToDraw = true → (pf.copyTo b).readyToDraw = true →
      (sk_gr_create_bitmap_texture pf ctx hist false params b).calls.countP
        GrCall.isLockAndRefScratchTexture = 1) := by
  unfold sk_gr_create_bitmap_texture
  simp only []
  split
  · split
    · simp only [Bool.false_eq_true, if_false]
      split
      · refine ⟨?_, fun _ _ => ?_⟩
        · intro c hcm
          simp only [List.mem_append, List.mem_singleton, List.mem_cons, List.not_mem_nil,
            or_false] at hcm
          rcases hcm with h | h
          · subst h; rfl
          · subst h; rfl
        · simp [List.countP_cons, GrCall.isLockAndRefScratchTexture]
      · refine ⟨?_, fun _ _ => ?_⟩
        · intro c hcm
          simp only [List.mem_append, List.mem_singleton, List.mem_cons, List.not_mem_nil,
            or_false] at hcm
          rcases hcm with (h | h) | h
          · subst h; rfl
          · subst h; rfl
          · subst h; rfl
        · simp [List.countP_cons, GrCall.isLockAndRefScratchTexture]
    · have h := upload_pixels_scratch pf ctx hist
        [GrCall.supportsIndex8PixelConfig params b.width b.height] params b (pf.copyTo b)
        { generate_bitmap_texture_desc pf b with
          fConfig := SkBitmapConfig2GrPixelConfig pf (pf.copyTo b).config }
        (by intro c hcm; simp only [List.mem_singleton] at hcm; subst hcm; rfl)
        (by simp [List.countP_cons, GrCall.isLockAndRefScratchTexture])
      exact ⟨h.1, fun _ h2 => h.2 h2⟩
  · have h := upload_pixels_scratch pf ctx hist [] params b b
        (generate_bitmap_texture_desc pf b) (by simp) (by simp)
    exact ⟨h.1, fun h1 _ => h.2 h1⟩

theorem lock_volatile_eq (pf : Platform) (ctx : GrContext) (hist : List GrCall)
    (params : Option GrTextureParams) (b : SkBitmap) (hvol : b.isVolatile = true) :
    GrLockAndRefCachedBitmapTexture pf ctx hist b params =
      match (sk_gr_create_bitmap_texture pf ctx hist false params b).result with
      | .ok none =>
        { calls := (sk_gr_create_bitmap_texture pf ctx hist false params b).calls ++
            [GrCall.GrPrintf b.width b.height], result := .ok none }
      | _ => sk_gr_create_bitmap_texture pf ctx hist false params b := by
  unfold GrLockAndRefCachedBitmapTexture lookup_cached
  simp only [hvol, Bool.not_true, Bool.false_eq_true, if_false, List.append_nil, List.nil_append]

theorem volatile_request_calls (pf : Platform) (ctx : GrContext) (hist : List GrCall)
    (params : Option GrTextureParams) (b : SkBitmap) (hvol : b.isVolatile = true) :
    (∀ c ∈ (GrLockAndRefCachedBitmapTexture pf ctx hist b params).calls,
      c.isFindAndRefTexture = false ∧ c.isCreateTexture = false ∧
        c.isAddGenIDChangeListener = false) ∧
    (b.readyToDraw = true → (pf.copyTo b).readyToDraw = true →
      (GrLockAndRefCachedBitmapTexture pf ctx hist b params).calls.countP
        GrCall.isLockAndRefScratchTexture = 1) := by
  have h := create_scratch pf ctx hist params b
  have key : (∀ c ∈ (GrLockAndRefCachedBitmapTexture pf ctx hist b params).calls,
      c.touchesCache = false) ∧
    (b.readyToDraw = true → (pf.copyTo b).readyToDraw = true →
      (GrLockAndRefCachedBitmapTexture pf ctx hist b params).calls.countP
        GrCall.isLockAndRefScratchTexture = 1) := by
    rw [lock_volatile_eq pf ctx hist params b hvol]
    split
    · refine ⟨?_, fun h1 h2 => ?_⟩
      · intro c hcm
        simp only [List.mem_append, List.mem_singleton] at hcm
        rcases hcm with hcm | hcm
        · exact h.1 c hcm
        · subst hcm; rfl
      · simp [List.countP_append, h.2 h1 h2, GrCall.isLockAndRefScratchTexture]
    · exact h
  refine ⟨fun c hc => ?_, key.2⟩
  have := key.1 c hc
  simpa [GrCall.touchesCache, and_assoc] using this


/-- C10. Volatile bypass: a request for a volatile bitmap makes no
`findAndRefTexture`, no `createTexture` and attaches no gen-ID listener.  When
the bitmap and its 32-bit copy can be locked, the request makes exactly one
`lockAndRefScratchTexture` call, and so does a second request for the same
bitmap that follows it: two requests, two scratch acquisitions. -/
theorem GrLockAndRefCachedBitmapTexture_volatile_bypass (pf : Platform) (ctx : GrContext)
    (hist : List GrCall) (params : Option GrTextureParams) (b : SkBitmap)
    (hvol : b.isVolatile = true) :
    (∀ c ∈ (GrLockAndRefCachedBitmapTexture pf ctx hist b params).calls,
      c.isFindAndRefTexture = false ∧ c.isCreateTexture = false ∧
        c.isAddGenIDChangeListener = false) ∧
    (b.readyToDraw = true → (pf.copyTo b).readyToDraw = true →
      (GrLockAndRefCachedBitmapTexture pf ctx hist b params).calls.countP
        GrCall.isLockAndRefScratchTexture = 1 ∧
      (GrLockAndRefCachedBitmapTexture pf ctx
        (hist ++ (GrLockAndRefCachedBitmapTexture pf ctx hist b params).calls) b params
        ).calls.countP GrCall.isLockAndRefScratchTexture = 1 ∧
      ((GrLockAndRefCachedBitmapTexture pf ctx hist b params).calls ++
        (GrLockAndRefCachedBitmapTexture pf ctx
          (hist ++ (GrLockAndRefCachedBitmapTexture pf ctx hist b params).calls) b params
          ).calls).countP GrCall.isLockAndRefScratchTexture = 2) := by
  refine ⟨(volatile_request_calls pf ctx hist params b hvol).1, fun h1 h2 => ?_⟩
  have a1 := (volatile_request_calls pf ctx hist params b hvol).2 h1 h2
  have a2 := (volatile_request_calls pf ctx
    (hist ++ (GrLockAndRefCachedBitmapTexture pf ctx hist b params).calls) params b hvol).2 h1 h2
  refine ⟨a1, a2, ?_⟩
  rw [List.countP_append, a1, a2]

set_option maxRecDepth 100000 in
/-- Witness of C10: two requests for the volatile 10 by 5 example. -/
theorem GrLockAndRefCachedBitmapTexture_volatile_bypass_witness :
    ((GrLockAndRefCachedBitmapTexture examplePlatform exampleContext [] exampleVolatile
        none).calls ++
      (GrLockAndRefCachedBitmapTexture examplePlatform exampleContext
        ([] ++ (GrLockAndRefCachedBitmapTexture examplePlatform exampleContext []
          exampleVolatile none).calls) exampleVolatile none).calls).countP
        GrCall.isLockAndRefScratchTexture = 2 :=
  ((GrLockAndRefCachedBitmapTexture_volatile_bypass examplePlatform exampleContext [] none
    exampleVolatile rfl).2 (by decide) (by decide)).2.2

/-! ## The texture request: normal forms -/

theorem lock_hit_eq (pf : Platform) (ctx : GrContext) (hist : List GrCall)
    (params : Option GrTextureParams) (b : SkBitmap) (id : GrCacheID) (t : GrTexture)
    (hnv : b.isVolatile = false)
    (hid : generate_bitmap_cache_id pf b = .ok id)
    (hhit : ctx.findAndRefTexture hist (generate_bitmap_texture_desc pf b) id params = some t) :
    GrLockAndRefCachedBitmapTexture pf ctx hist b params =
      { calls := [GrCall.findAndRefTexture (generate_bitmap_texture_desc pf b) id params]
        result := .ok (some t) } := by
  unfold GrLockAndRefCachedBitmapTexture lookup_cached
  simp only [hnv, hid, hhit, Bool.not_false, if_true]

/-- After a miss the request is the creation run, with the failure report when
it gave NULL. -/
theorem lock_miss_eq (pf : Platform) (ctx : GrContext) (hist : List GrCall)
    (params : Option GrTextureParams) (b : SkBitmap) (id : GrCacheID)
    (hnv : b.isVolatile = false)
    (hid : generate_bitmap_cache_id pf b = .ok id)
    (hmiss : ctx.findAndRefTexture hist (generate_bitmap_texture_desc pf b) id params = none) :
    GrLockAndRefCachedBitmapTexture pf ctx hist b params =
      match (sk_gr_create_bitmap_texture pf ctx
        (hist ++ [GrCall.findAndRefTexture (generate_bitmap_texture_desc pf b) id params])
        true params b).result with
      | .ok none =>
        { calls := GrCall.findAndRefTexture (generate_bitmap_texture_desc pf b) id params ::
            (sk_gr_create_bitmap_texture pf ctx
              (hist ++ [GrCall.findAndRefTexture (generate_bitmap_texture_desc pf b) id params])
              true params b).calls ++ [GrCall.GrPrintf b.width b.height]
          result := .ok none }
      | r =>
        { calls := GrCall.findAndRefTexture (generate_bitmap_texture_desc pf b) id params ::
            (sk_gr_create_bitmap_texture pf ctx
              (hist ++ [GrCall.findAndRefTexture (generate_bitmap_texture_desc pf b) id params])
              true params b).calls
          result := r } := by
  unfold GrLockAndRefCachedBitmapTexture lookup_cached
  simp only [hnv, hid, hmiss, Bool.not_false, if_true, List.singleton_append, List.cons_append,
    List.nil_append]
  all_goals
    generalize sk_gr_create_bitmap_texture pf ctx _ true params b = r
    rcases r with ⟨calls, res⟩
    cases res with
    | error e => rfl
    | ok o => cases o <;> rfl

/-- The creation run for a cached request, in one piece. -/
theorem create_cached_eq (pf : Platform) (ctx : GrContext) (hist : List GrCall)
    (params : Option GrTextureParams) (b : SkBitmap) (id : GrCacheID)
    (hid : generate_bitmap_cache_id pf b = .ok id) :
    sk_gr_create_bitmap_texture pf ctx hist true params b =
      if index8_supported ctx hist params b = false ∧
          (upload_source pf ctx hist params b).readyToDraw = false then
        { calls := upload_prelude params b, result := .ok none }
      else
        match (ctx.createTexture (hist ++ upload_prelude params b) params
            (upload_desc pf ctx hist params b) id (upload_data pf ctx hist params b)
            (if index8_supported ctx hist params b then b.width
              else (upload_source pf ctx hist params b).rowBytes)).1 with
        | some t =>
          { calls := upload_prelude params b ++
              [GrCall.createTexture params (upload_desc pf ctx hist params b) id
                (upload_data pf ctx hist params b)
                (if index8_supported ctx hist params b then b.width
                  else (upload_source pf ctx hist params b).rowBytes),
               GrCall.addGenIDChangeListener b.pixelRef
                (ctx.createTexture (hist ++ upload_prelude params b) params
                  (upload_desc pf ctx hist params b) id (upload_data pf ctx hist params b)
                  (if index8_supported ctx hist params b then b.width
                    else (upload_source pf ctx hist params b).rowBytes)).2]
            result := .ok (some t) }
        | none =>
          { calls := upload_prelude params b ++
              [GrCall.createTexture params (upload_desc pf ctx hist params b) id
                (upload_data pf ctx hist params b)
                (if index8_supported ctx hist params b then b.width
                  else (upload_source pf ctx hist params b).rowBytes)]
            result := .ok none } := by
  unfold sk_gr_create_bitmap_texture upload_pixels
  by_cases hc : b.config = Config.kIndex8_Config
  · by_cases hs : ctx.supportsIndex8PixelConfig hist params b.width b.height = true
    · have e1 : index8_supported ctx hist params b = true := by simp [index8_supported, hc, hs]
      have e2 : upload_source pf ctx hist params b = b := by simp [upload_source, hs]
      have e3 : upload_desc pf ctx hist params b = generate_bitmap_texture_desc pf b := by
        simp [upload_desc, e2, generate_bitmap_texture_desc]
      simp only [hc, hs, e1, e3, upload_prelude, upload_data, hid, if_true]
      simp
    · have hs' : ctx.supportsIndex8PixelConfig hist params b.width b.height = false := by
        simpa using hs
      have e1 : index8_supported ctx hist params b = false := by simp [index8_supported, hs']
      have e2 : upload_source pf ctx hist params b = pf.copyTo b := by
        simp [upload_source, hc, hs']
      simp only [hc, hs', e1, e2, upload_desc, upload_prelude, upload_data, hid, if_true]
      by_cases hr : (pf.copyTo b).readyToDraw = true
      · simp [hr]
      · have hr' : (pf.copyTo b).readyToDraw = false := by simpa using hr
        simp [hr']
  · have e1 : index8_supported ctx hist params b = false := by simp [index8_supported, hc]
    have e2 : upload_source pf ctx hist params b = b := by simp [upload_source, hc]
    have e3 : upload_desc pf ctx hist params b = generate_bitmap_texture_desc pf b := by
      simp [upload_desc, e2, generate_bitmap_texture_desc]
    simp only [hc, e1, e2, e3, upload_prelude, upload_data, hid, if_false]
    by_cases hr : b.readyToDraw = true
    · simp [hr]
    · have hr' : b.readyToDraw = false := by simpa using hr
      simp [hr']

/-- The creation run for a request that bypasses the cache, in one piece. -/
theorem create_scratch_eq (pf : Platform) (ctx : GrContext) (hist : List GrCall)
    (params : Option GrTextureParams) (b : SkBitmap) :
    sk_gr_create_bitmap_texture pf ctx hist false params b =
      if index8_supported ctx hist params b = false ∧
          (upload_source pf ctx hist params b).readyToDraw = false then
        { calls := upload_prelude params b, result := .ok none }
      else
        match ctx.lockAndRefScratchTexture (hist ++ upload_prelude params b)
            (upload_desc pf ctx hist params b) .kExact_ScratchTexMatch with
        | none =>
          { calls := upload_prelude params b ++
              [GrCall.lockAndRefScratchTexture (upload_desc pf ctx hist params b)
                .kExact_ScratchTexMatch]
            result := .error .NullDeref }
        | some t =>
          { calls := upload_prelude params b ++
              [GrCall.lockAndRefScratchTexture (upload_desc pf ctx hist params b)
                .kExact_ScratchTexMatch,
               GrCall.writePixels t 0 0 (upload_source pf ctx hist params b).width
                (upload_source pf ctx hist params b).height
                (upload_desc pf ctx hist params b).fConfig (upload_data pf ctx hist params b)
                (if index8_supported ctx hist params b then 0
                  else (upload_source pf ctx hist params b).rowBytes)]
            result := .ok (some t) } := by
  unfold sk_gr_create_bitmap_texture upload_pixels
  by_cases hc : b.config = Config.kIndex8_Config
  · by_cases hs : ctx.supportsIndex8PixelConfig hist params b.width b.height = true
    · have e1 : index8_supported ctx hist params b = true := by simp [index8_supported, hc, hs]
      have e2 : upload_source pf ctx hist params b = b := by simp [upload_source, hs]
      have e3 : upload_desc pf ctx hist params b = generate_bitmap_texture_desc pf b := by
        simp [upload_desc, e2, generate_bitmap_texture_desc]
      simp only [hc, hs, e1, e2, e3, upload_prelude, upload_data, if_true]
      simp
    · have hs' : ctx.supportsIndex8PixelConfig hist params b.width b.height = false := by
        simpa using hs
      have e1 : index8_supported ctx hist params b = false := by simp [index8_supported, hs']
      have e2 : upload_source pf ctx hist params b = pf.copyTo b := by
        simp [upload_source, hc, hs']
      simp only [hc, hs', e1, e2, upload_desc, upload_prelude, upload_data, if_true]
      by_cases hr : (pf.copyTo b).readyToDraw = true
      · simp [hr]
      · have hr' : (pf.copyTo b).readyToDraw = false := by simpa using hr
        simp [hr']
  · have e1 : index8_supported ctx hist params b = false := by simp [index8_supported, hc]
    have e2 : upload_source pf ctx hist params b = b := by simp [upload_source, hc]
    have e3 : upload_desc pf ctx hist params b = generate_bitmap_texture_desc pf b := by
      simp [upload_desc, e2, generate_bitmap_texture_desc]
    simp only [hc, e1, e2, e3, upload_prelude, upload_data, if_false]
    by_cases hr : b.readyToDraw = true
    · simp [hr]
    · have hr' : b.readyToDraw = false := by simpa using hr
      simp [hr']

theorem upload_prelude_counts (params : Option GrTextureParams) (b : SkBitmap) :
    (upload_prelude params b).countP GrCall.isGrPrintf = 0 ∧
    (upload_prelude params b).countP GrCall.isFindAndRefTexture = 0 ∧
    (upload_prelude params b).countP GrCall.isCreateTexture = 0 ∧
    (upload_prelude params b).countP GrCall.isLockAndRefScratchTexture = 0 ∧
    (upload_prelude params b).countP GrCall.isAddGenIDChangeListener = 0 ∧
    (upload_prelude params b).countP GrCall.isWritePixels = 0 := by
  unfold upload_prelude
  split <;> simp [List.countP_cons, GrCall.isGrPrintf, GrCall.isFindAndRefTexture,
    GrCall.isCreateTexture, GrCall.isLockAndRefScratchTexture,
    GrCall.isAddGenIDChangeListener, GrCall.isWritePixels]

theorem create_cached_error (pf : Platform) (ctx : GrContext) (hist : List GrCall)
    (params : Option GrTextureParams) (b : SkBitmap) (e : SkError)
    (hid : generate_bitmap_cache_id pf b = .error e) :
    sk_gr_create_bitmap_texture pf ctx hist true params b =
      if index8_supported ctx hist params b = false ∧
          (upload_source pf ctx hist params b).readyToDraw = false then
        { calls := upload_prelude params b, result := .ok none }
      else
        { calls := upload_prelude params b, result := .error e } := by
  unfold sk_gr_create_bitmap_texture upload_pixels
  by_cases hc : b.config = Config.kIndex8_Config
  · by_cases hs : ctx.supportsIndex8PixelConfig hist params b.width b.height = true
    · have e1 : index8_supported ctx hist params b = true := by simp [index8_supported, hc, hs]
      simp [hc, hs, e1, upload_prelude, hid]
    · have hs' : ctx.supportsIndex8PixelConfig hist params b.width b.height = false := by
        simpa using hs
      have e1 : index8_supported ctx hist params b = false := by simp [index8_supported, hs']
      have e2 : upload_source pf ctx hist params b = pf.copyTo b := by
        simp [upload_source, hc, hs']
      by_cases hr : (pf.copyTo b).readyToDraw = true
      · simp [hc, hs', e1, e2, upload_prelude, hid, hr]
      · have hr' : (pf.copyTo b).readyToDraw = false := by simpa using hr
        simp [hc, hs', e1, e2, upload_prelude, hid, hr']
  · have e1 : index8_supported ctx hist params b = false := by simp [index8_supported, hc]
    have e2 : upload_source pf ctx hist params b = b := by simp [upload_source, hc]
    by_cases hr : b.readyToDraw = true
    · simp [hc, e1, e2, upload_prelude, hid, hr]
    · have hr' : b.readyToDraw = false := by simpa using hr
      simp [hc, e1, e2, upload_prelude, hid, hr']

/-- What one creation run contributes to the counts of a request. -/
theorem create_counts (pf : Platform) (ctx : GrContext) (hist : List GrCall) (cache : Bool)
    (params : Option GrTextureParams) (b : SkBitmap) :
    (sk_gr_create_bitmap_texture pf ctx hist cache params b).calls.countP GrCall.isGrPrintf = 0 ∧
    (sk_gr_create_bitmap_texture pf ctx hist cache params b).calls.countP
      GrCall.isFindAndRefTexture = 0 ∧
    (sk_gr_create_bitmap_texture pf ctx hist cache params b).calls.countP
        GrCall.isCreateTexture +
      (sk_gr_create_bitmap_texture pf ctx hist cache params b).calls.countP
        GrCall.isLockAndRefScratchTexture ≤ 1 := by
  obtain ⟨p1, p2, p3, p4, _, _⟩ := upload_prelude_counts params b
  cases cache with
  | false =>
    rw [create_scratch_eq]
    split
    · simp [p1, p2, p3, p4]
    · split <;> simp [List.countP_append, List.countP_cons, p1, p2, p3, p4, GrCall.isGrPrintf,
        GrCall.isFindAndRefTexture, GrCall.isCreateTexture, GrCall.isLockAndRefScratchTexture]
  | true =>
    cases hid : generate_bitmap_cache_id pf b with
    | error e =>
      rw [create_cached_error pf ctx hist params b e hid]
      split <;> simp [p1, p2, p3, p4]
    | ok id =>
      rw [create_cached_eq pf ctx hist params b id hid]
      split
      · simp [p1, p2, p3, p4]
      · split <;> simp [List.countP_append, List.countP_cons, p1, p2, p3, p4,
          GrCall.isGrPrintf, GrCall.isFindAndRefTexture, GrCall.isCreateTexture,
          GrCall.isLockAndRefScratchTexture]

/-- The request in terms of its lookup and its creation run. -/
theorem lock_eq (pf : Platform) (ctx : GrContext) (hist : List GrCall)
    (params : Option GrTextureParams) (b : SkBitmap) :
    GrLockAndRefCachedBitmapTexture pf ctx hist b params =
      match (lookup_cached pf ctx hist b params).result with
      | .ok none =>
        match (sk_gr_create_bitmap_texture pf ctx
            (hist ++ (lookup_cached pf ctx hist b params).calls) (!b.isVolatile) params
            b).result with
        | .ok none =>
          { calls := (lookup_cached pf ctx hist b params).calls ++
              (sk_gr_create_bitmap_texture pf ctx
                (hist ++ (lookup_cached pf ctx hist b params).calls) (!b.isVolatile) params
                b).calls ++ [GrCall.GrPrintf b.width b.height]
            result := .ok none }
        | r =>
          { calls := (lookup_cached pf ctx hist b params).calls ++
              (sk_gr_create_bitmap_texture pf ctx
                (hist ++ (lookup_cached pf ctx hist b params).calls) (!b.isVolatile) params
                b).calls
            result := r }
      | r => { calls := (lookup_cached pf ctx hist b params).calls, result := r } := by
  unfold GrLockAndRefCachedBitmapTexture
  simp only []
  generalize lookup_cached pf ctx hist b params = f
  rcases f with ⟨fc, fr⟩
  cases fr with
  | error e => rfl
  | ok o =>
    cases o with
    | some t => rfl
    | none =>
      simp only []
      generalize sk_gr_create_bitmap_texture pf ctx (hist ++ fc) (!b.isVolatile) params b = r
      rcases r with ⟨calls, res⟩
      cases res with
      | error e => rfl
      | ok o => cases o <;> rfl

theorem lookup_counts (pf : Platform) (ctx : GrContext) (hist : List GrCall)
    (params : Option GrTextureParams) (b : SkBitmap) :
    (lookup_cached pf ctx hist b params).calls.countP GrCall.isGrPrintf = 0 ∧
    (lookup_cached pf ctx hist b params).calls.countP GrCall.isFindAndRefTexture ≤ 1 ∧
    (lookup_cached pf ctx hist b params).calls.countP GrCall.isCreateTexture = 0 ∧
    (lookup_cached pf ctx hist b params).calls.countP GrCall.isLockAndRefScratchTexture = 0 := by
  unfold lookup_cached
  cases hv : b.isVolatile with
  | true => simp
  | false =>
    simp only [Bool.not_false, if_true]
    split <;> simp [List.countP_cons, GrCall.isGrPrintf, GrCall.isFindAndRefTexture,
      GrCall.isCreateTexture, GrCall.isLockAndRefScratchTexture]

theorem upload_source_ready (pf : Platform) (ctx : GrContext) (hist : List GrCall)
    (params : Option GrTextureParams) (b : SkBitmap)
    (hready : b.readyToDraw = true) (hcopy : (pf.copyTo b).readyToDraw = true) :
    (upload_source pf ctx hist params b).readyToDraw = true := by
  unfold upload_source
  split
  · exact hcopy
  · exact hready

theorem upload_source_dims (pf : Platform) (ctx : GrContext) (hist : List GrCall)
    (params : Option GrTextureParams) (b : SkBitmap)
    (hw : (pf.copyTo b).width = b.width) (hh : (pf.copyTo b).height = b.height) :
    (upload_source pf ctx hist params b).width = b.width ∧
    (upload_source pf ctx hist params b).height = b.height := by
  unfold upload_source
  split
  · exact ⟨hw, hh⟩
  · exact ⟨rfl, rfl⟩

theorem upload_desc_fields (pf : Platform) (ctx : GrContext) (hist : List GrCall)
    (params : Option GrTextureParams) (b : SkBitmap) :
    (upload_desc pf ctx hist params b).fFlags = (generate_bitmap_texture_desc pf b).fFlags ∧
    (upload_desc pf ctx hist params b).fWidth = (generate_bitmap_texture_desc pf b).fWidth ∧
    (upload_desc pf ctx hist params b).fHeight = (generate_bitmap_texture_desc pf b).fHeight ∧
    (upload_desc pf ctx hist params b).fSampleCnt =
      (generate_bitmap_texture_desc pf b).fSampleCnt ∧
    (¬ (b.config = Config.kIndex8_Config ∧
        ctx.supportsIndex8PixelConfig hist params b.width b.height = false) →
      upload_desc pf ctx hist params b = generate_bitmap_texture_desc pf b) ∧
    (b.config = Config.kIndex8_Config →
      ctx.supportsIndex8PixelConfig hist params b.width b.height = false →
      (upload_desc pf ctx hist params b).fConfig =
        SkBitmapConfig2GrPixelConfig pf (pf.copyTo b).config) := by
  refine ⟨rfl, rfl, rfl, rfl, ?_, ?_⟩
  · intro h
    simp [upload_desc, upload_source, h, generate_bitmap_texture_desc]
  · intro h1 h2
    simp [upload_desc, upload_source, h1, h2]

theorem create_cached_mem (pf : Platform) (ctx : GrContext) (hist : List GrCall)
    (params : Option GrTextureParams) (b : SkBitmap) (id : GrCacheID)
    (hid : generate_bitmap_cache_id pf b = .ok id)
    (p : Option GrTextureParams) (d : GrTextureDesc) (i : GrCacheID) (data : List Nat)
    (rb : Nat)
    (hmem : GrCall.createTexture p d i data rb ∈
      (sk_gr_create_bitmap_texture pf ctx hist true params b).calls) :
    p = params ∧ i = id ∧ d = upload_desc pf ctx hist params b := by
  have hpre : GrCall.createTexture p d i data rb ∉ upload_prelude params b := by
    unfold upload_prelude
    split <;> simp
  rw [create_cached_eq pf ctx hist params b id hid] at hmem
  split at hmem
  · exact absurd hmem hpre
  · split at hmem
    · simp only [List.mem_append, List.mem_cons, List.mem_singleton, List.not_mem_nil,
        or_false] at hmem
      rcases hmem with h | h | h
      · exact absurd h hpre
      · injection h with h1 h2 h3 h4 h5
        exact ⟨h1, h3, h2⟩
      · cases h
    · simp only [List.mem_append, List.mem_singleton] at hmem
      rcases hmem with h | h
      · exact absurd h hpre
      · injection h with h1 h2 h3 h4 h5
        exact ⟨h1, h3, h2⟩

/-! ## The texture request: claims on lookup, creation and failure -/

/-- C11. Cache hit: for a non-volatile bitmap whose lookup
`findAndRefTexture(desc, key, params)` returns a texture, the request consists of
that one lookup and returns exactly that texture: no upload, no `createTexture`,
no scratch acquisition, no `writePixels`, no listener and no failure report. -/
theorem GrLockAndRefCachedBitmapTexture_cache_hit (pf : Platform) (ctx : GrContext) (hist : List GrCall)
    (params : Option GrTextureParams) (b : SkBitmap) (id : GrCacheID) (t : GrTexture)
    (hnv : b.isVolatile = false)
    (hid : generate_bitmap_cache_id pf b = .ok id)
    (hhit : ctx.findAndRefTexture hist (generate_bitmap_texture_desc pf b) id params = some t) :
    GrLockAndRefCachedBitmapTexture pf ctx hist b params =
      { calls := [GrCall.findAndRefTexture (generate_bitmap_texture_desc pf b) id params]
        result := .ok (some t) } ∧
    (GrLockAndRefCachedBitmapTexture pf ctx hist b params).uploads = [] ∧
    (∀ c ∈ (GrLockAndRefCachedBitmapTexture pf ctx hist b params).calls,
      c.isCreateTexture = false ∧ c.isLockAndRefScratchTexture = false ∧
      c.isWritePixels = false ∧ c.isAddGenIDChangeListener = false ∧ c.isGrPrintf = false) := by
  have e := lock_hit_eq pf ctx hist params b id t hnv hid hhit
  rw [e]
  refine ⟨rfl, rfl, ?_⟩
  intro c hc
  simp only [List.mem_singleton] at hc
  subst hc
  exact ⟨rfl, rfl, rfl, rfl, rfl⟩

set_option maxRecDepth 100000 in
/-- Witness of C11: the 10 by 5 example on a context that has texture 3 cached. -/
theorem GrLockAndRefCachedBitmapTexture_cache_hit_witness :
    (GrLockAndRefCachedBitmapTexture examplePlatform exampleContextHit [] exampleDirect
      none).uploads = [] :=
  (GrLockAndRefCachedBitmapTexture_cache_hit examplePlatform exampleContextHit [] none
    exampleDirect ⟨1, [1, 0, 0, 0, 0, 0, 0, 0, 0, 0, 0, 0, 10, 0, 5, 0]⟩ ⟨3⟩
    rfl (by decide) rfl).2.1

/-- C12. Miss and insert: for a non-volatile bitmap whose lookup misses, take
the `createTexture` call of the request and the answer the context gave to it,
asked with the calls made before it.  The request returns exactly the texture
of that answer; when it is non-null the only listener attached is the one on
the bitmap's pixel ref with the resource key of that answer, and when it is
NULL no listener is attached and the request returns NULL.  A request that
never reaches `createTexture` returns NULL and attaches no listener. -/
theorem GrLockAndRefCachedBitmapTexture_miss_listener (pf : Platform) (ctx : GrContext) (hist : List GrCall)
    (params : Option GrTextureParams) (b : SkBitmap) (id : GrCacheID)
    (hnv : b.isVolatile = false)
    (hid : generate_bitmap_cache_id pf b = .ok id)
    (hmiss : ctx.findAndRefTexture hist (generate_bitmap_texture_desc pf b) id params = none) :
    (∀ p d i data rb,
      (GrLockAndRefCachedBitmapTexture pf ctx hist b params).calls.find?
          GrCall.isCreateTexture = some (GrCall.createTexture p d i data rb) →
        (GrLockAndRefCachedBitmapTexture pf ctx hist b params).result =
          .ok (ctx.createTexture
            (hist ++ (GrLockAndRefCachedBitmapTexture pf ctx hist b params).calls.takeWhile
              (fun c => !c.isCreateTexture)) p d i data rb).1 ∧
        (GrLockAndRefCachedBitmapTexture pf ctx hist b params).calls.filter
            GrCall.isAddGenIDChangeListener =
          match (ctx.createTexture
            (hist ++ (GrLockAndRefCachedBitmapTexture pf ctx hist b params).calls.takeWhile
              (fun c => !c.isCreateTexture)) p d i data rb).1 with
          | some _ =>
            [GrCall.addGenIDChangeListener b.pixelRef (ctx.createTexture
              (hist ++ (GrLockAndRefCachedBitmapTexture pf ctx hist b params).calls.takeWhile
                (fun c => !c.isCreateTexture)) p d i data rb).2]
          | none => []) ∧
    ((GrLockAndRefCachedBitmapTexture pf ctx hist b params).calls.find?
        GrCall.isCreateTexture = none →
      (GrLockAndRefCachedBitmapTexture pf ctx hist b params).result = .ok none ∧
      (GrLockAndRefCachedBitmapTexture pf ctx hist b params).calls.filter
        GrCall.isAddGenIDChangeListener = []) := by
  rw [lock_miss_eq pf ctx hist params b id hnv hid hmiss,
    create_cached_eq pf ctx _ params b id hid]
  by_cases hatt : index8_supported ctx
      (hist ++ [GrCall.findAndRefTexture (generate_bitmap_texture_desc pf b) id params])
      params b = false ∧
      (upload_source pf ctx
        (hist ++ [GrCall.findAndRefTexture (generate_bitmap_texture_desc pf b) id params])
        params b).readyToDraw = false
  · rw [if_pos hatt]
    unfold upload_prelude
    by_cases hc : b.config = Config.kIndex8_Config <;>
      simp [hc, GrCall.isCreateTexture, GrCall.isAddGenIDChangeListener]
  · rw [if_neg hatt]
    cases hans : (ctx.createTexture
        (hist ++ [GrCall.findAndRefTexture (generate_bitmap_texture_desc pf b) id params] ++
          upload_prelude params b) params
        (upload_desc pf ctx
          (hist ++ [GrCall.findAndRefTexture (generate_bitmap_texture_desc pf b) id params])
          params b) id
        (upload_data pf ctx
          (hist ++ [GrCall.findAndRefTexture (generate_bitmap_texture_desc pf b) id params])
          params b)
        (if index8_supported ctx
            (hist ++ [GrCall.findAndRefTexture (generate_bitmap_texture_desc pf b) id params])
            params b = true then b.width
          else (upload_source pf ctx
            (hist ++ [GrCall.findAndRefTexture (generate_bitmap_texture_desc pf b) id params])
            params b).rowBytes)).1 with
    | none =>
      unfold upload_prelude at hans ⊢
      by_cases hc : b.config = Config.kIndex8_Config
      · simp only [hc, if_true] at hans ⊢
        have hans1 := hans
        simp only [List.append_assoc, List.singleton_append] at hans1
        simp [hans, GrCall.isCreateTexture, GrCall.isAddGenIDChangeListener]
        intro p d i data rb h1 h2 h3 h4 h5
        subst h1 h2 h3 h4 h5
        simp [hans1]
      · simp only [hc, if_false] at hans ⊢
        have hans1 := hans
        simp only [List.append_nil] at hans1
        simp [hans, GrCall.isCreateTexture, GrCall.isAddGenIDChangeListener]
        intro p d i data rb h1 h2 h3 h4 h5
        subst h1 h2 h3 h4 h5
        simp [hans1]
    | some t =>
      unfold upload_prelude at hans ⊢
      by_cases hc : b.config = Config.kIndex8_Config
      · simp only [hc, if_true] at hans ⊢
        have hans1 := hans
        simp only [List.append_assoc, List.singleton_append] at hans1
        simp [hans, GrCall.isCreateTexture, GrCall.isAddGenIDChangeListener]
        intro p d i data rb h1 h2 h3 h4 h5
        subst h1 h2 h3 h4 h5
        simp [hans1]
      · simp only [hc, if_false] at hans ⊢
        have hans1 := hans
        simp only [List.append_nil] at hans1
        simp [hans, GrCall.isCreateTexture, GrCall.isAddGenIDChangeListener]
        intro p d i data rb h1 h2 h3 h4 h5
        subst h1 h2 h3 h4 h5
        simp [hans1]

set_option maxRecDepth 100000 in
/-- Witness of C12: the 10 by 5 example misses, texture 1 is created under
resource key 5, and the listener attached carries key 5. -/
theorem GrLockAndRefCachedBitmapTexture_miss_listener_witness :
    (GrLockAndRefCachedBitmapTexture examplePlatform exampleContext [] exampleDirect
        none).result = .ok (some ⟨1⟩) ∧
      (GrLockAndRefCachedBitmapTexture examplePlatform exampleContext [] exampleDirect
        none).calls.filter GrCall.isAddGenIDChangeListener =
        [GrCall.addGenIDChangeListener 8 ⟨5⟩] :=
  (GrLockAndRefCachedBitmapTexture_miss_listener examplePlatform exampleContext [] none
    exampleDirect ⟨1, [1, 0, 0, 0, 0, 0, 0, 0, 0, 0, 0, 0, 10, 0, 5, 0]⟩
    rfl (by decide) rfl).1 none
      (generate_bitmap_texture_desc examplePlatform exampleDirect)
      ⟨1, [1, 0, 0, 0, 0, 0, 0, 0, 0, 0, 0, 0, 10, 0, 5, 0]⟩ (List.range 240) 48 (by decide)

set_option maxRecDepth 100000 in
/-- C13, evaluation at the failing input: the volatile 10 by 5 example on a
context whose scratch pool cannot supply a texture.  The request acquires,
gets NULL, and goes on to `writePixels` through the NULL pointer: it neither
returns NULL nor reports the failure.  On a context whose `createTexture`
fails, the cached path does return NULL and reports once. -/
theorem scratch_failure_null_deref :
    (GrLockAndRefCachedBitmapTexture examplePlatform exampleContextNoScratch []
      exampleVolatile none).result = .error .NullDeref ∧
    (GrLockAndRefCachedBitmapTexture examplePlatform exampleContextNoScratch []
      exampleVolatile none).calls =
        [GrCall.lockAndRefScratchTexture
          (generate_bitmap_texture_desc examplePlatform exampleVolatile)
          .kExact_ScratchTexMatch] ∧
    (GrLockAndRefCachedBitmapTexture examplePlatform exampleContextNoScratch []
      { exampleIndex8 with isVolatile := true } none).result = .error .NullDeref ∧
    (GrLockAndRefCachedBitmapTexture examplePlatform exampleContextNoCreate []
      exampleDirect none).result = .ok none ∧
    (GrLockAndRefCachedBitmapTexture examplePlatform exampleContextNoCreate []
      exampleDirect none).calls.map GrCall.isGrPrintf = [false, false, true] := by
  decide

/-- C14. Failure is reported exactly once: a request that returns NULL has made
exactly one `GrPrintf` report, a request that returns a texture has made none,
and no request repeats a step: at most one `findAndRefTexture`, and at most one
of `createTexture` and `lockAndRefScratchTexture`. -/
theorem GrLockAndRefCachedBitmapTexture_reports_once (pf : Platform) (ctx : GrContext) (hist : List GrCall)
    (params : Option GrTextureParams) (b : SkBitmap) :
    ((GrLockAndRefCachedBitmapTexture pf ctx hist b params).result = .ok none →
      (GrLockAndRefCachedBitmapTexture pf ctx hist b params).calls.countP GrCall.isGrPrintf = 1) ∧
    (∀ t, (GrLockAndRefCachedBitmapTexture pf ctx hist b params).result = .ok (some t) →
      (GrLockAndRefCachedBitmapTexture pf ctx hist b params).calls.countP GrCall.isGrPrintf = 0) ∧
    (GrLockAndRefCachedBitmapTexture pf ctx hist b params).calls.countP
      GrCall.isFindAndRefTexture ≤ 1 ∧
    (GrLockAndRefCachedBitmapTexture pf ctx hist b params).calls.countP
        GrCall.isCreateTexture +
      (GrLockAndRefCachedBitmapTexture pf ctx hist b params).calls.countP
        GrCall.isLockAndRefScratchTexture ≤ 1 := by
  obtain ⟨l1, l2, l3, l4⟩ := lookup_counts pf ctx hist params b
  obtain ⟨c1, c2, c3⟩ := create_counts pf ctx
    (hist ++ (lookup_cached pf ctx hist b params).calls) (!b.isVolatile) params b
  rw [lock_eq]
  split
  · split
    · refine ⟨fun _ => ?_, fun t h => ?_, ?_, ?_⟩
      · simp [List.countP_append, l1, c1, GrCall.isGrPrintf]
      · cases h
      · simp [List.countP_append, c2, GrCall.isFindAndRefTexture]; omega
      · simp [List.countP_append, l3, l4, GrCall.isCreateTexture,
          GrCall.isLockAndRefScratchTexture]; omega
    · rename_i r hr
      refine ⟨fun h => ?_, fun t _ => ?_, ?_, ?_⟩
      · exact absurd h (by simpa using hr)
      · simp [List.countP_append, l1, c1]
      · simp [List.countP_append, c2]; omega
      · simp [List.countP_append, l3, l4]; omega
  · rename_i r hr
    refine ⟨fun h => ?_, fun t _ => ?_, l2, ?_⟩
    · exact absurd h (by simpa using hr)
    · exact l1
    · simp [l3, l4]

set_option maxRecDepth 100000 in
/-- Witness of C14: the 10 by 5 example on a context whose `createTexture`
fails. -/
theorem GrLockAndRefCachedBitmapTexture_reports_once_witness :
    (GrLockAndRefCachedBitmapTexture examplePlatform exampleContextNoCreate [] exampleDirect
      none).calls.countP GrCall.isGrPrintf = 1 :=
  (GrLockAndRefCachedBitmapTexture_reports_once examplePlatform exampleContextNoCreate []
    none exampleDirect).1 (by decide)

/-- C17. Scratch textures are matched by shape and format and fully overwritten:
for a volatile bitmap that can be locked (as can its 32-bit copy, which has the
same dimensions), the request makes exactly one acquisition, with exact
matching, on a descriptor that has the bitmap's width and height and the mapped
config of the bitmap uploaded; the acquisition takes no cache key.  A returned
texture is the one acquired, and the one `writePixels` made on it covers the
rectangle (0, 0, desc.fWidth, desc.fHeight) with desc.fConfig. -/
theorem scratch_exact_full_write (pf : Platform) (ctx : GrContext) (hist : List GrCall)
    (params : Option GrTextureParams) (b : SkBitmap)
    (hvol : b.isVolatile = true) (hready : b.readyToDraw = true)
    (hcopy : (pf.copyTo b).readyToDraw = true)
    (hw : (pf.copyTo b).width = b.width) (hh : (pf.copyTo b).height = b.height) :
    (upload_desc pf ctx hist params b).fWidth = b.width ∧
    (upload_desc pf ctx hist params b).fHeight = b.height ∧
    (upload_desc pf ctx hist params b).fConfig =
      SkBitmapConfig2GrPixelConfig pf (upload_source pf ctx hist params b).config ∧
    (GrLockAndRefCachedBitmapTexture pf ctx hist b params).calls.filter
        GrCall.isLockAndRefScratchTexture =
      [GrCall.lockAndRefScratchTexture (upload_desc pf ctx hist params b)
        .kExact_ScratchTexMatch] ∧
    (∀ t, (GrLockAndRefCachedBitmapTexture pf ctx hist b params).result = .ok (some t) →
      ctx.lockAndRefScratchTexture (hist ++ upload_prelude params b)
        (upload_desc pf ctx hist params b) .kExact_ScratchTexMatch = some t ∧
      (GrLockAndRefCachedBitmapTexture pf ctx hist b params).calls.filter GrCall.isWritePixels =
        [GrCall.writePixels t 0 0 (upload_desc pf ctx hist params b).fWidth
          (upload_desc pf ctx hist params b).fHeight (upload_desc pf ctx hist params b).fConfig
          (upload_data pf ctx hist params b)
          (if index8_supported ctx hist params b then 0
            else (upload_source pf ctx hist params b).rowBytes)]) ∧
    (∀ t, ctx.lockAndRefScratchTexture (hist ++ upload_prelude params b)
        (upload_desc pf ctx hist params b) .kExact_ScratchTexMatch = some t →
      (GrLockAndRefCachedBitmapTexture pf ctx hist b params).result = .ok (some t)) := by
  have hsrc := upload_source_ready pf ctx hist params b hready hcopy
  obtain ⟨dw, dh⟩ := upload_source_dims pf ctx hist params b hw hh
  refine ⟨rfl, rfl, rfl, ?_⟩
  rw [lock_volatile_eq pf ctx hist params b hvol, create_scratch_eq]
  rw [if_neg (by simp [hsrc])]
  have hfw : (upload_desc pf ctx hist params b).fWidth = b.width := rfl
  have hfh : (upload_desc pf ctx hist params b).fHeight = b.height := rfl
  cases hans : ctx.lockAndRefScratchTexture (hist ++ upload_prelude params b)
      (upload_desc pf ctx hist params b) .kExact_ScratchTexMatch with
  | none =>
    unfold upload_prelude
    by_cases hc : b.config = Config.kIndex8_Config <;>
      simp [hc, GrCall.isLockAndRefScratchTexture, GrCall.isWritePixels]
  | some t =>
    unfold upload_prelude
    by_cases hc : b.config = Config.kIndex8_Config <;>
      simp [hc, GrCall.isLockAndRefScratchTexture, GrCall.isWritePixels, dw, dh, hfw, hfh]

set_option maxRecDepth 100000 in
/-- Witness of C17: the volatile 10 by 5 example. -/
theorem scratch_exact_full_write_witness :
    (GrLockAndRefCachedBitmapTexture examplePlatform exampleContext [] exampleVolatile
      none).calls.filter GrCall.isLockAndRefScratchTexture =
        [GrCall.lockAndRefScratchTexture
          (upload_desc examplePlatform exampleContext [] none exampleVolatile)
          .kExact_ScratchTexMatch] :=
  (scratch_exact_full_write examplePlatform exampleContext [] none exampleVolatile
    rfl (by decide) (by decide) rfl rfl).2.2.2.1

set_option maxRecDepth 100000 in
/-- Counterexample to C18: the 2 by 2 index-8 example on a context without
index-8 support.  The lookup addresses the cache with a descriptor of config
`kIndex_8_GrPixelConfig`, the `createTexture` that follows the miss with a
descriptor of config `kBGRA_8888_GrPixelConfig`, the config of the 32-bit copy. -/
theorem lookup_insert_desc_differ :
    ((GrLockAndRefCachedBitmapTexture examplePlatform exampleContextNoIndex8 [] exampleIndex8
      none).calls.filterMap GrCall.keyTriple).map (fun k => k.1.fConfig) =
        [.kIndex_8_GrPixelConfig, .kBGRA_8888_GrPixelConfig] ∧
    ((GrLockAndRefCachedBitmapTexture examplePlatform exampleContextNoIndex8 [] exampleIndex8
      none).calls.filterMap GrCall.keyTriple).map (fun k => k.2) =
        [(⟨1, [1, 0, 0, 0, 0, 0, 0, 0, 0, 0, 0, 0, 2, 0, 2, 0]⟩, none),
         (⟨1, [1, 0, 0, 0, 0, 0, 0, 0, 0, 0, 0, 0, 2, 0, 2, 0]⟩, none)] := by
  decide

/-- C18, amended. For a non-volatile bitmap, the lookup of the request and
`GrIsBitmapInCache` address the cache with the same triple: the descriptor of
`generate_bitmap_texture_desc`, the cache id and `params`.  A `createTexture`
made after a miss is given the same cache id and `params` and a descriptor with
the same flags, width, height and sample count; its pixel config is the same
too, except for an index-8 bitmap on a context without index-8 support, where
it is the mapped config of the 32-bit copy. -/
theorem lookup_insert_same_key (pf : Platform) (ctx : GrContext) (hist : List GrCall)
    (params : Option GrTextureParams) (b : SkBitmap) (id : GrCacheID)
    (hnv : b.isVolatile = false)
    (hid : generate_bitmap_cache_id pf b = .ok id) :
    (GrLockAndRefCachedBitmapTexture pf ctx hist b params).calls.head? =
      some (GrCall.findAndRefTexture (generate_bitmap_texture_desc pf b) id params) ∧
    GrIsBitmapInCache pf ctx hist b params =
      .ok (ctx.isTextureInCache hist (generate_bitmap_texture_desc pf b) id params) ∧
    (∀ p d i data rb,
      GrCall.createTexture p d i data rb ∈
          (GrLockAndRefCachedBitmapTexture pf ctx hist b params).calls →
        p = params ∧ i = id ∧
        d.fFlags = (generate_bitmap_texture_desc pf b).fFlags ∧
        d.fWidth = (generate_bitmap_texture_desc pf b).fWidth ∧
        d.fHeight = (generate_bitmap_texture_desc pf b).fHeight ∧
        d.fSampleCnt = (generate_bitmap_texture_desc pf b).fSampleCnt ∧
        (¬ (b.config = Config.kIndex8_Config ∧
            ctx.supportsIndex8PixelConfig
              (hist ++ [GrCall.findAndRefTexture (generate_bitmap_texture_desc pf b) id params])
              params b.width b.height = false) →
          d = generate_bitmap_texture_desc pf b) ∧
        (b.config = Config.kIndex8_Config →
          ctx.supportsIndex8PixelConfig
            (hist ++ [GrCall.findAndRefTexture (generate_bitmap_texture_desc pf b) id params])
            params b.width b.height = false →
          d.fConfig = SkBitmapConfig2GrPixelConfig pf (pf.copyTo b).config)) := by
  have hf := upload_desc_fields pf ctx
    (hist ++ [GrCall.findAndRefTexture (generate_bitmap_texture_desc pf b) id params]) params b
  refine ⟨?_, ?_, ?_⟩
  · cases hfind : ctx.findAndRefTexture hist (generate_bitmap_texture_desc pf b) id params with
    | some t => rw [lock_hit_eq pf ctx hist params b id t hnv hid hfind]; rfl
    | none =>
      rw [lock_miss_eq pf ctx hist params b id hnv hid hfind]
      split <;> rfl
  · simp [GrIsBitmapInCache, hid, bind, Except.bind, pure, Except.pure]
  · intro p d i data rb hmem
    cases hfind : ctx.findAndRefTexture hist (generate_bitmap_texture_desc pf b) id params with
    | some t =>
      rw [lock_hit_eq pf ctx hist params b id t hnv hid hfind] at hmem
      simp at hmem
    | none =>
      rw [lock_miss_eq pf ctx hist params b id hnv hid hfind] at hmem
      have hin : GrCall.createTexture p d i data rb ∈
          (sk_gr_create_bitmap_texture pf ctx
            (hist ++ [GrCall.findAndRefTexture (generate_bitmap_texture_desc pf b) id params])
            true params b).calls := by
        split at hmem
        · simpa using hmem
        · simpa using hmem
      have key := create_cached_mem pf ctx _ params b id hid p d i data rb hin
      obtain ⟨k1, k2, k3⟩ := key
      subst k3
      exact ⟨k1, k2, hf⟩

set_option maxRecDepth 100000 in
/-- Witness of C18, amended: the lookup made for the 10 by 5 example. -/
theorem lookup_insert_same_key_witness :
    (GrLockAndRefCachedBitmapTexture examplePlatform exampleContext [] exampleDirect
      none).calls.head? =
      some (GrCall.findAndRefTexture
        (generate_bitmap_texture_desc examplePlatform exampleDirect)
        ⟨1, [1, 0, 0, 0, 0, 0, 0, 0, 0, 0, 0, 0, 10, 0, 5, 0]⟩ none) :=
  (lookup_insert_same_key examplePlatform exampleContext [] none exampleDirect
    ⟨1, [1, 0, 0, 0, 0, 0, 0, 0, 0, 0, 0, 0, 10, 0, 5, 0]⟩ rfl (by decide)).1

/-! ## Invalidation: lemmas and claims -/

theorem onChange_foldl_cache (ls : List GrResourceInvalidator) (s : InvalidationState) :
    (ls.foldl (fun st l => l.onChange st) s).cache = s.cache := by
  induction ls generalizing s with
  | nil => rfl
  | cons l ls ih =>
    rw [List.foldl_cons, ih]
    rfl

theorem onChange_foldl_inbox (ls : List GrResourceInvalidator) (s : InvalidationState) :
    (ls.foldl (fun st l => l.onChange st) s).bus.inbox =
      s.bus.inbox ++ ls.map (fun l => { key := l.fKey }) := by
  induction ls generalizing s with
  | nil => simp
  | cons l ls ih =>
    rw [List.foldl_cons, ih]
    simp [GrResourceInvalidator.onChange, SkMessageBus.Post]

theorem find_purgeInvalidated (s : InvalidationState) (k : GrResourceKey)
    (h : ({ key := k } : GrResourceInvalidatedMessage) ∈ s.bus.inbox) :
    s.purgeInvalidated.cache.find k = none := by
  unfold InvalidationState.purgeInvalidated GrResourceCache.find
  simp only [Option.map_eq_none', List.find?_eq_none, List.mem_filter]
  intro e he
  obtain ⟨_, hk⟩ := he
  intro hek
  simp only [decide_eq_true_eq] at hek
  simp only [Bool.not_eq_true', List.any_eq_false, decide_eq_true_eq] at hk
  exact hk _ h hek.symm

/-- C15. Invalidation message content: `add_genID_listener(k, pixelRef)` attaches
one listener that holds `k` and changes nothing else of the pixel ref; when that
listener's `onChange` fires it makes one `Post`, of the message with key `k`, so
the bus holds exactly one message more, `{ k }`, and the cache is untouched.
Firing the listeners of the pixel ref therefore posts, after the messages of
the listeners attached before, exactly the message `{ k }`. -/
theorem GrResourceInvalidator_onChange_posts_key (k : GrResourceKey) (pixelRef : SkPixelRef)
    (s : InvalidationState) :
    (add_genID_listener k pixelRef).listeners = pixelRef.listeners ++ [{ fKey := k }] ∧
    (add_genID_listener k pixelRef).generationID = pixelRef.generationID ∧
    (GrResourceInvalidator.onChange { fKey := k } s).bus = s.bus.Post { key := k } ∧
    (GrResourceInvalidator.onChange { fKey := k } s).bus.inbox = s.bus.inbox ++ [{ key := k }] ∧
    (GrResourceInvalidator.onChange { fKey := k } s).cache = s.cache ∧
    ((add_genID_listener k pixelRef).notifyPixelsChanged s).2.bus.inbox =
      (pixelRef.notifyPixelsChanged s).2.bus.inbox ++ [{ key := k }] ∧
    ((add_genID_listener k pixelRef).notifyPixelsChanged s).2.cache = s.cache := by
  refine ⟨rfl, rfl, rfl, rfl, rfl, ?_, ?_⟩
  · simp only [add_genID_listener, SkPixelRef.addGenIDChangeListener,
      SkPixelRef.notifyPixelsChanged, onChange_foldl_inbox, List.map_append, List.map_cons,
      List.map_nil, List.append_assoc]
  · simp [SkPixelRef.notifyPixelsChanged, onChange_foldl_cache]

/-- C16. Invalidation correctness: take a pixel source that carries the listener
for the effective key of (params, desc, stale cache id), as it does once its
texture was cached.  After the generation id of the source changes and the bus
is drained once, the lookup with the stale cache id misses; the listeners are
gone and the generation id is a new one. -/
theorem stale_lookup_misses_after_drain
    (computeKey : Option GrTextureParams → GrTextureDesc → GrCacheID → GrResourceKey)
    (s : InvalidationState) (pixelRef : SkPixelRef) (desc : GrTextureDesc)
    (staleID : GrCacheID) (params : Option GrTextureParams)
    (h : ({ fKey := computeKey params desc staleID } : GrResourceInvalidator) ∈
      pixelRef.listeners) :
    ((pixelRef.notifyPixelsChanged s).2.purgeInvalidated.cache.findAndRefTexture computeKey
      desc staleID params) = none ∧
    (pixelRef.notifyPixelsChanged s).1.listeners = [] ∧
    (pixelRef.notifyPixelsChanged s).1.generationID ≠ pixelRef.generationID := by
  refine ⟨?_, rfl, ?_⟩
  · unfold GrResourceCache.findAndRefTexture
    apply find_purgeInvalidated
    simp only [SkPixelRef.notifyPixelsChanged, onChange_foldl_inbox, List.mem_append,
      List.mem_map]
    exact Or.inr ⟨_, h, rfl⟩
  · simp [SkPixelRef.notifyPixelsChanged]

/-- Witness of C16: texture 1 is cached under key 5 and found; after the source
changed and the bus was drained it is not. -/
theorem stale_lookup_misses_after_drain_witness :
    exampleState.cache.findAndRefTexture (fun _ _ _ => ⟨5⟩)
        (generate_bitmap_texture_desc examplePlatform exampleDirect) ⟨1, []⟩ none =
      some ⟨1⟩ ∧
    (examplePixelRef.notifyPixelsChanged exampleState).2.purgeInvalidated.cache.findAndRefTexture
        (fun _ _ _ => ⟨5⟩) (generate_bitmap_texture_desc examplePlatform exampleDirect)
        ⟨1, []⟩ none = none :=
  ⟨by decide,
    (stale_lookup_misses_after_drain (fun _ _ _ => ⟨5⟩) exampleState examplePixelRef
      (generate_bitmap_texture_desc examplePlatform exampleDirect) ⟨1, []⟩ none
      (by decide)).1⟩

/-! ## The two copy paths and the config maps -/

theorem memcpy_add (m : Mem) (dst : Nat) (src : List Nat) (so a b : Nat) :
    memcpy m dst src so (a + b) = memcpy (memcpy m dst src so a) (dst + a) src (so + a) b := by
  induction b with
  | zero => rfl
  | succ b ih =>
    show memcpy m dst src so (a + b + 1) = _
    simp only [memcpy, ih, Nat.add_assoc]

theorem copyRows_eq_memcpy (pixels : List Nat) (w n : Nat) (m : Mem) (src dst : Nat) :
    copyRows pixels w w n m src dst = memcpy m dst pixels src (n * w) := by
  induction n generalizing m src dst with
  | zero => simp [copyRows, memcpy]
  | succ n ih =>
    simp only [copyRows]
    rw [ih, Nat.succ_mul, Nat.add_comm (n * w) w, memcpy_add]

/-- C19. The two copy paths of `build_compressed_data` agree: for a bitmap whose
row stride equals its width, the single bulk copy of `getSize()` bytes, which is
`height * rowBytes`, leaves the destination and the access trace exactly as the
row-by-row loop does, so `build_compressed_data` and its general path give the
same result. -/
theorem build_compressed_data_paths_agree (pf : Platform) (buffer : List Nat) (b : SkBitmap)
    (hw : b.width = b.rowBytes) :
    b.getSize = b.height * b.rowBytes ∧
    (∀ (m : Mem) (pixels : List Nat),
      memcpy m kGrColorTableSize pixels 0 b.getSize =
        copyRows pixels b.width b.rowBytes b.height m 0 kGrColorTableSize) ∧
    build_compressed_data pf buffer b = build_compressed_data_row_by_row pf buffer b := by
  refine ⟨rfl, ?_, ?_⟩
  · intro m pixels
    rw [hw, copyRows_eq_memcpy, SkBitmap.getSize]
  · unfold build_compressed_data build_compressed_data_row_by_row
    simp only [hw, if_true, SkBitmap.getSize]
    split
    · rfl
    · split
      · rw [copyRows_eq_memcpy]
      · rfl

set_option maxRecDepth 100000 in
/-- Witness of C19: the 2 by 2 example with row stride 2. -/
theorem build_compressed_data_paths_agree_witness :
    build_compressed_data examplePlatform (List.replicate 1028 0) exampleIndex8Tight =
      build_compressed_data_row_by_row examplePlatform (List.replicate 1028 0)
        exampleIndex8Tight :=
  (build_compressed_data_paths_agree examplePlatform (List.replicate 1028 0)
    exampleIndex8Tight rfl).2.2

/-- C20. Colour-type / pixel-config round trip: for every colour type other than
`kUnknown_SkColorType` and every alpha type, `GrPixelConfig2ColorType` applied to
`SkImageInfo2GrPixelConfig(ct, alpha)` returns true and stores `ct` (and only
returns true when the out-pointer is NULL); for every config that is not the
image of such a colour type, `kUnknown_GrPixelConfig` among them, it returns
false and leaves the output as it was. -/
theorem GrPixelConfig2ColorType_round_trip :
    (∀ (ct : SkColorType) (alpha : SkAlphaType) (old : SkColorType),
      ct ≠ SkColorType.kUnknown_SkColorType →
      GrPixelConfig2ColorType (SkImageInfo2GrPixelConfig ct alpha) (some old) = (true, some ct) ∧
      GrPixelConfig2ColorType (SkImageInfo2GrPixelConfig ct alpha) none = (true, none)) ∧
    (∀ (config : GrPixelConfig) (ctOut : Option SkColorType),
      (∀ (ct : SkColorType) (alpha : SkAlphaType), ct ≠ SkColorType.kUnknown_SkColorType →
        config ≠ SkImageInfo2GrPixelConfig ct alpha) →
      GrPixelConfig2ColorType config ctOut = (false, ctOut)) ∧
    (∀ ctOut : Option SkColorType,
      GrPixelConfig2ColorType GrPixelConfig.kUnknown_GrPixelConfig ctOut = (false, ctOut)) := by
  refine ⟨?_, ?_, fun _ => rfl⟩
  · intro ct alpha old h
    cases ct <;> first | exact absurd rfl h | exact ⟨rfl, rfl⟩
  · intro config ctOut h
    cases config
    · rfl
    · exact absurd rfl (h .kAlpha_8_SkColorType .kPremul_SkAlphaType (by decide))
    · exact absurd rfl (h .kIndex_8_SkColorType .kPremul_SkAlphaType (by decide))
    · exact absurd rfl (h .kRGB_565_SkColorType .kPremul_SkAlphaType (by decide))
    · exact absurd rfl (h .kARGB_4444_SkColorType .kPremul_SkAlphaType (by decide))
    · exact absurd rfl (h .kRGBA_8888_SkColorType .kPremul_SkAlphaType (by decide))
    · exact absurd rfl (h .kBGRA_8888_SkColorType .kPremul_SkAlphaType (by decide))

/-- Witness of C20: `kARGB_4444_SkColorType` with an opaque alpha type. -/
theorem GrPixelConfig2ColorType_round_trip_witness :
    GrPixelConfig2ColorType
      (SkImageInfo2GrPixelConfig .kARGB_4444_SkColorType .kOpaque_SkAlphaType)
      (some .kUnknown_SkColorType) = (true, some .kARGB_4444_SkColorType) :=
  (GrPixelConfig2ColorType_round_trip.1 .kARGB_4444_SkColorType .kOpaque_SkAlphaType
    .kUnknown_SkColorType (by decide)).1

/-! ## Bicubic sampling: lemmas -/

theorem shl_or_eq_add (a b i : Nat) (hb : b < 2 ^ i) : a <<< i ||| b = a * 2 ^ i + b := by
  rw [Nat.shiftLeft_eq, Nat.mul_comm a (2 ^ i), ← Nat.mul_add_lt_is_or hb]

theorem pack_bytes (a b c d : Nat) (hb : b ≤ 255) (hc : c ≤ 255) (hd : d ≤ 255) :
    a <<< 24 ||| (b <<< 16 ||| (c <<< 8 ||| d)) = a * 16777216 + b * 65536 + c * 256 + d := by
  rw [shl_or_eq_add c d 8 (by omega), shl_or_eq_add b _ 16 (by omega),
    shl_or_eq_add a _ 24 (by omega)]
  omega

theorem toU8CPU_of_byte (x : Int) (h0 : 0 ≤ x) (h1 : x ≤ 255) :
    toU8CPU x = x.toNat ∧ x.toNat ≤ 255 := by
  unfold toU8CPU
  constructor
  · congr 1
    omega
  · omega

theorem lor_rearrange (x w z y : Nat) : x ||| w ||| z ||| y = x ||| (y ||| (z ||| w)) := by
  rw [Nat.lor_assoc, Nat.lor_assoc, ← Nat.lor_assoc w z y, Nat.lor_comm (w ||| z) y,
    Nat.lor_comm w z]

/-- Packing bytes and taking them apart again. -/
theorem SkGetPacked32_SkPackARGB32 (core : SkCore) (a r g b : Int)
    (ha : 0 ≤ a ∧ a ≤ 255) (hr : 0 ≤ r ∧ r ≤ 255) (hg : 0 ≤ g ∧ g ≤ 255)
    (hb : 0 ≤ b ∧ b ≤ 255) :
    (SkGetPackedA32 core (SkPackARGB32 core a r g b) : Int) = a ∧
    (SkGetPackedR32 core (SkPackARGB32 core a r g b) : Int) = r ∧
    (SkGetPackedG32 core (SkPackARGB32 core a r g b) : Int) = g ∧
    (SkGetPackedB32 core (SkPackARGB32 core a r g b) : Int) = b := by
  obtain ⟨ea, la⟩ := toU8CPU_of_byte a ha.1 ha.2
  obtain ⟨er, lr⟩ := toU8CPU_of_byte r hr.1 hr.2
  obtain ⟨eg, lg⟩ := toU8CPU_of_byte g hg.1 hg.2
  obtain ⟨eb, lb⟩ := toU8CPU_of_byte b hb.1 hb.2
  have ca : (a.toNat : Int) = a := Int.toNat_of_nonneg ha.1
  have cr : (r.toNat : Int) = r := Int.toNat_of_nonneg hr.1
  have cg : (g.toNat : Int) = g := Int.toNat_of_nonneg hg.1
  have cb : (b.toNat : Int) = b := Int.toNat_of_nonneg hb.1
  generalize a.toNat = A at *
  generalize r.toNat = R at *
  generalize g.toNat = G at *
  generalize b.toNat = B at *
  have sh : ∀ (x s : Nat), x ≤ 255 → s ≤ 24 → shl32 x s = x <<< s := by
    intro x s hx hs
    unfold shl32
    apply Nat.mod_eq_of_lt
    rw [Nat.shiftLeft_eq]
    calc x * 2 ^ s ≤ 255 * 2 ^ 24 :=
          Nat.mul_le_mul hx (Nat.pow_le_pow_right (by decide) hs)
      _ < 4294967296 := by decide
  cases ho : core.order with
  | kRGBA =>
    have key : SkPackARGB32 core a r g b = A * 16777216 + B * 65536 + G * 256 + R := by
      unfold SkPackARGB32 SK_A32_SHIFT SK_R32_SHIFT SK_G32_SHIFT SK_B32_SHIFT
      simp only [ho, ea, er, eg, eb]
      rw [sh A 24 la (by decide), sh R 0 lr (by decide), sh G 8 lg (by decide),
        sh B 16 lb (by decide), Nat.shiftLeft_zero, ← pack_bytes A B G R lb lg lr,
        lor_rearrange]
    simp only [SkGetPackedA32, SkGetPackedR32, SkGetPackedG32, SkGetPackedB32, SkGetPacked32,
      SK_A32_SHIFT, SK_R32_SHIFT, SK_G32_SHIFT, SK_B32_SHIFT, ho, key, Nat.shiftLeft_eq,
      Nat.shiftRight_eq_div_pow]
    refine ⟨?_, ?_, ?_, ?_⟩ <;> omega
  | kBGRA =>
    have key : SkPackARGB32 core a r g b = A * 16777216 + R * 65536 + G * 256 + B := by
      unfold SkPackARGB32 SK_A32_SHIFT SK_R32_SHIFT SK_G32_SHIFT SK_B32_SHIFT
      simp only [ho, ea, er, eg, eb]
      rw [sh A 24 la (by decide), sh R 16 lr (by decide), sh G 8 lg (by decide),
        sh B 0 lb (by decide), Nat.shiftLeft_zero, ← pack_bytes A R G B lr lg lb]
      rw [Nat.lor_assoc, Nat.lor_assoc]
    simp only [SkGetPackedA32, SkGetPackedR32, SkGetPackedG32, SkGetPackedB32, SkGetPacked32,
      SK_A32_SHIFT, SK_R32_SHIFT, SK_G32_SHIFT, SK_B32_SHIFT, ho, key, Nat.shiftLeft_eq,
      Nat.shiftRight_eq_div_pow]
    refine ⟨?_, ?_, ?_, ?_⟩ <;> omega

theorem SkClampMax_range (core : SkCore) (hclamp : core.clampsToRange) (value max : Int)
    (hmax : 0 ≤ max) :
    0 ≤ core.SkClampMax value max ∧ core.SkClampMax value max ≤ max := by
  rw [hclamp value max]
  split
  · omega
  · split <;> omega

theorem SkClampMax_mono (core : SkCore) (hclamp : core.clampsToRange) (v1 v2 max : Int)
    (hmax : 0 ≤ max) (h : v1 ≤ v2) :
    core.SkClampMax v1 max ≤ core.SkClampMax v2 max := by
  rw [hclamp v1 max, hclamp v2 max]
  split <;> split <;> try split
  all_goals try split
  all_goals omega

/-! ## Bicubic sampling: claims -/

/-- C21. `cubicBlend` yields a valid premultiplied colour: with `SkClampMax`
pinning to `0 .. max`, for all four fixed-point coefficients and all four packed
input colours the packed result has an alpha of at most 255 and red, green and
blue of at most that alpha (the components are unsigned, so none is below 0). -/
theorem cubicBlend_valid_premul (core : SkCore) (hclamp : core.clampsToRange)
    (cc : Fin 4 → Int) (c0 c1 c2 c3 : Nat) :
    SkGetPackedA32 core (cubicBlend core cc c0 c1 c2 c3) ≤ 255 ∧
    SkGetPackedR32 core (cubicBlend core cc c0 c1 c2 c3) ≤
      SkGetPackedA32 core (cubicBlend core cc c0 c1 c2 c3) ∧
    SkGetPackedG32 core (cubicBlend core cc c0 c1 c2 c3) ≤
      SkGetPackedA32 core (cubicBlend core cc c0 c1 c2 c3) ∧
    SkGetPackedB32 core (cubicBlend core cc c0 c1 c2 c3) ≤
      SkGetPackedA32 core (cubicBlend core cc c0 c1 c2 c3) := by
  unfold cubicBlend
  simp only []
  generalize core.SkFixedRoundToInt _ = va
  generalize core.SkFixedRoundToInt _ = vr
  generalize core.SkFixedRoundToInt _ = vg
  generalize core.SkFixedRoundToInt _ = vb
  obtain ⟨a0, a1⟩ := SkClampMax_range core hclamp va 255 (by decide)
  obtain ⟨r0, r1⟩ := SkClampMax_range core hclamp vr (core.SkClampMax va 255) a0
  obtain ⟨g0, g1⟩ := SkClampMax_range core hclamp vg (core.SkClampMax va 255) a0
  obtain ⟨b0, b1⟩ := SkClampMax_range core hclamp vb (core.SkClampMax va 255) a0
  obtain ⟨ea, er, eg, eb⟩ := SkGetPacked32_SkPackARGB32 core (core.SkClampMax va 255)
    (core.SkClampMax vr (core.SkClampMax va 255)) (core.SkClampMax vg (core.SkClampMax va 255))
    (core.SkClampMax vb (core.SkClampMax va 255)) ⟨a0, a1⟩ ⟨r0, by omega⟩ ⟨g0, by omega⟩
    ⟨b0, by omega⟩
  refine ⟨?_, ?_, ?_, ?_⟩ <;> omega

set_option maxRecDepth 100000 in
/-- Witness of C21: coefficients -10000, 10000, 30000 and 50000 on four
different colours. -/
theorem cubicBlend_valid_premul_witness :
    SkGetPackedR32 exampleCore
        (cubicBlend exampleCore (fun i => (i : Int) * 20000 - 10000) 4280303712 2155905152
          4294967295 1082163328) ≤
      SkGetPackedA32 exampleCore
        (cubicBlend exampleCore (fun i => (i : Int) * 20000 - 10000) 4280303712 2155905152
          4294967295 1082163328) :=
  (cubicBlend_valid_premul exampleCore (fun _ _ => rfl) (fun i => (i : Int) * 20000 - 10000)
    4280303712 2155905152 4294967295 1082163328).2.1

theorem toInt32_of_range (x : Int) (h0 : -2147483648 ≤ x) (h1 : x ≤ 2147483647) :
    toInt32 x = x := by
  unfold toInt32
  omega

set_option maxRecDepth 100000 in
/-- Counterexample to C22: on the 10 by 5 example, at source column 2147483647
the expressions `sx + 1` and `sx + 2` wrap to negative values, so the sample
columns are 9, 9, 0, 0, and at source column -2147483648 the expression
`sx - 1` wraps to 2147483647, so they are 9, 0, 0, 0; the rows behave alike.
All of them lie inside the bitmap, but they are not in ascending order. -/
theorem bicubicFilter_order_breaks_at_overflow :
    bicubicFilter_xs exampleCore exampleDirect 2147483647 = [9, 9, 0, 0] ∧
    bicubicFilter_xs exampleCore exampleDirect (-2147483648) = [9, 0, 0, 0] ∧
    bicubicFilter_ys exampleCore exampleDirect 2147483647 = [4, 4, 0, 0] ∧
    bicubicFilter_ys exampleCore exampleDirect (-2147483648) = [4, 0, 0, 0] ∧
    ¬ ∃ x0 x1 x2 x3 : Int,
      bicubicFilter_xs exampleCore exampleDirect 2147483647 = [x0, x1, x2, x3] ∧
      x0 ≤ x1 ∧ x1 ≤ x2 ∧ x2 ≤ x3 := by
  have hx : bicubicFilter_xs exampleCore exampleDirect 2147483647 = [9, 9, 0, 0] := by decide
  refine ⟨hx, by decide, by decide, by decide, ?_⟩
  rintro ⟨x0, x1, x2, x3, h, _, h12, _⟩
  rw [hx] at h
  simp only [List.cons.injEq, and_true] at h
  obtain ⟨_, e1, e2, _⟩ := h
  omega

/-- C22, amended. Bicubic sampling stays inside the bitmap: with `SkClampMax`
pinning to `0 .. max`, for every source position `(sx, sy)`, negative and large
ones included, and every bitmap of width and height at least 1, the 16 reads
are at the coordinates `(x_i, y_j)` with `0 <= x_i <= width - 1` and
`0 <= y_j <= height - 1`.  Where `sx - 1` and `sx + 2` stay within the range of
`int` (`-2147483648 < sx <= 2147483645`) the columns are in ascending order,
`x0 <= x1 <= x2 <= x3`, and likewise `y0 <= y1 <= y2 <= y3` for such `sy`. -/
theorem bicubicFilter_samples_in_bounds (core : SkCore) (hclamp : core.clampsToRange)
    (bitmap : SkBitmap) (sx sy : Int) (hw : 1 ≤ bitmap.width) (hh : 1 ≤ bitmap.height) :
    (∃ x0 x1 x2 x3 y0 y1 y2 y3 : Int,
      bicubicFilter_xs core bitmap sx = [x0, x1, x2, x3] ∧
      bicubicFilter_ys core bitmap sy = [y0, y1, y2, y3] ∧
      bicubicFilter_samples core bitmap sx sy =
        [(x0, y0), (x1, y0), (x2, y0), (x3, y0), (x0, y1), (x1, y1), (x2, y1), (x3, y1),
         (x0, y2), (x1, y2), (x2, y2), (x3, y2), (x0, y3), (x1, y3), (x2, y3), (x3, y3)] ∧
      (-2147483648 < sx → sx ≤ 2147483645 → x0 ≤ x1 ∧ x1 ≤ x2 ∧ x2 ≤ x3) ∧
      (-2147483648 < sy → sy ≤ 2147483645 → y0 ≤ y1 ∧ y1 ≤ y2 ∧ y2 ≤ y3)) ∧
    (∀ p ∈ bicubicFilter_samples core bitmap sx sy,
      0 ≤ p.1 ∧ p.1 ≤ (bitmap.width : Int) - 1 ∧ 0 ≤ p.2 ∧ p.2 ≤ (bitmap.height : Int) - 1) := by
  have hmx : (0 : Int) ≤ (bitmap.width : Int) - 1 := by omega
  have hmy : (0 : Int) ≤ (bitmap.height : Int) - 1 := by omega
  have rx := fun v => SkClampMax_range core hclamp v _ hmx
  have ry := fun v => SkClampMax_range core hclamp v _ hmy
  have mx := fun v1 v2 => SkClampMax_mono core hclamp v1 v2 _ hmx
  have my := fun v1 v2 => SkClampMax_mono core hclamp v1 v2 _ hmy
  refine ⟨⟨_, _, _, _, _, _, _, _, rfl, rfl, rfl, ?_, ?_⟩, ?_⟩
  · intro h0 h1
    rw [toInt32_of_range (sx - 1) (by omega) (by omega),
      toInt32_of_range (sx + 1) (by omega) (by omega),
      toInt32_of_range (sx + 2) (by omega) (by omega)]
    exact ⟨mx _ _ (by omega), mx _ _ (by omega), mx _ _ (by omega)⟩
  · intro h0 h1
    rw [toInt32_of_range (sy - 1) (by omega) (by omega),
      toInt32_of_range (sy + 1) (by omega) (by omega),
      toInt32_of_range (sy + 2) (by omega) (by omega)]
    exact ⟨my _ _ (by omega), my _ _ (by omega), my _ _ (by omega)⟩
  · intro p hp
    simp only [bicubicFilter_samples, bicubicFilter_xs, bicubicFilter_ys, List.mem_flatMap,
      List.mem_map, List.mem_cons, List.mem_singleton, List.not_mem_nil, or_false] at hp
    obtain ⟨y, hy, x, hx, rfl⟩ := hp
    have hxr : 0 ≤ x ∧ x ≤ (bitmap.width : Int) - 1 := by
      rcases hx with h | h | h | h <;> (subst h; exact rx _)
    have hyr : 0 ≤ y ∧ y ≤ (bitmap.height : Int) - 1 := by
      rcases hy with h | h | h | h <;> (subst h; exact ry _)
    exact ⟨hxr.1, hxr.2, hyr.1, hyr.2⟩

/-- Witness of C22, amended: the 10 by 5 example sampled at column -5 and row
100, both far from the ends of the `int` range. -/
theorem bicubicFilter_samples_in_bounds_witness :
    ∃ x0 x1 x2 x3 y0 y1 y2 y3 : Int,
      bicubicFilter_xs exampleCore exampleDirect (-5) = [x0, x1, x2, x3] ∧
      bicubicFilter_ys exampleCore exampleDirect 100 = [y0, y1, y2, y3] ∧
      bicubicFilter_samples exampleCore exampleDirect (-5) 100 =
        [(x0, y0), (x1, y0), (x2, y0), (x3, y0), (x0, y1), (x1, y1), (x2, y1), (x3, y1),
         (x0, y2), (x1, y2), (x2, y2), (x3, y2), (x0, y3), (x1, y3), (x2, y3), (x3, y3)] ∧
      (x0 ≤ x1 ∧ x1 ≤ x2 ∧ x2 ≤ x3) ∧ (y0 ≤ y1 ∧ y1 ≤ y2 ∧ y2 ≤ y3) := by
  obtain ⟨x0, x1, x2, x3, y0, y1, y2, y3, h1, h2, h3, ox, oy⟩ :=
    (bicubicFilter_samples_in_bounds exampleCore (fun _ _ => rfl) exampleDirect (-5) 100
      (by decide) (by decide)).1
  exact ⟨x0, x1, x2, x3, y0, y1, y2, y3, h1, h2, h3, ox (by decide) (by decide),
    oy (by decide) (by decide)⟩

end SkGr
